import Mathlib

/-!
Verification development for a WebSocket IRC server (`src/app.py`).

The Python program is shallowly embedded: Python strings become Lean
`String` (or `List Char` for the byte-level parser/formatter of the
dispatcher), Python dicts become association lists preserving the dict's
insertion-order/update semantics, Python sets become duplicate-free lists,
and every `async` handler becomes a pure function from server state to a
pair of (new server state, list of emitted messages).  The event loop runs
handlers to completion one at a time, so a handler is a pure state
transformer.  Timestamps are modelled by ambient `now`/`nowStr` fields of
the server state (the clock is external input to the program).
-/

/-! ## Generic association-list / set helpers (Python dict and set) -/

/-- Python `d.get(k)`: first (unique) binding of `k`. -/
def aGet {κ α : Type} [BEq κ] (m : List (κ × α)) (k : κ) : Option α :=
  (m.find? (fun p => p.1 == k)).map (fun p => p.2)

/-- Python `d[k] = v`: update in place if the key exists, else append
(CPython dicts preserve insertion order and keep the slot on update). -/
def aSet {κ α : Type} [BEq κ] (m : List (κ × α)) (k : κ) (v : α) : List (κ × α) :=
  if (m.find? (fun p => p.1 == k)).isSome then
    m.map (fun p => if p.1 == k then (k, v) else p)
  else
    m ++ [(k, v)]

/-- Python `d.pop(k, None)` / `del d[k]`. -/
def aPop {κ α : Type} [BEq κ] (m : List (κ × α)) (k : κ) : List (κ × α) :=
  m.filter (fun p => !(p.1 == k))

/-- Python `s.add(x)` on a set (modelled as a duplicate-free list). -/
def sInsert {α : Type} [BEq α] (s : List α) (x : α) : List α :=
  if s.contains x then s else s ++ [x]

/-- Python `s.discard(x)` on a set. -/
def sRemove {α : Type} [BEq α] (s : List α) (x : α) : List α :=
  s.filter (fun y => !(y == x))

/-! ## Character classes and small string utilities -/

/-- Backtick, `{`, `|`, `}` written by code point to keep the source plain. -/
def backtickChar : Char := Char.ofNat 96
def lbraceChar : Char := Char.ofNat 123
def rbraceChar : Char := Char.ofNat 125

/-- Python `str.split()` whitespace (the ASCII part, which is all the
dispatcher ever sees on one logical line: the driver strips `\r`/`\n`). -/
def isWsC (c : Char) : Bool :=
  c == ' ' || c == '\t' || c == '\n' || c == '\x0b' || c == '\x0c' || c == '\r'

/-- Python `str.strip()` (used by `cmd_JOIN` on each channel token). -/
def pyStrip (s : String) : String :=
  String.mk (((s.data.dropWhile (fun c => isWsC c)).reverse.dropWhile (fun c => isWsC c)).reverse)

/-- Python `str.lower()` for one character (the ASCII range, which is all
the protocol's case-insensitivity is about). -/
def lowChar (c : Char) : Char := if 'A' ≤ c ∧ c ≤ 'Z' then Char.ofNat (c.toNat + 32) else c

/-- Python `str.lower()` (ASCII model of the source's `str.lower`). -/
def pyLower (s : String) : String := String.mk (s.data.map lowChar)

/-- Python `s[:n]`. -/
def pyTake (s : String) (n : Nat) : String := String.mk (s.data.take n)

/-- Python `s.split(",")` (keeps empty pieces, like the original). -/
def pySplitComma (s : String) : List String := (s.data.splitOn ',').map String.mk

/-- Python `s.startswith(("#", "&", "!", "+"))`. -/
def startsSigil (s : String) : Bool :=
  match s.data.head? with
  | some c => c == '#' || c == '&' || c == '!' || c == '+'
  | none => false

/-! ## The dispatcher's tokenizer and the outbound formatter (C8)

`IRCServer.dispatch` (src/app.py lines 257-272) and `Client.send_from`
(lines 197-201), modelled at the character level on `List Char`. -/

/-- `line.split(" ", 1)[1] if len > 1 else ""`: everything after the first
space, or the empty string when there is no space. -/
def afterFirstSpace : List Char → List Char
  | [] => []
  | c :: rest => if c = ' ' then rest else afterFirstSpace rest

/-- The dispatcher's leading-source strip: a line starting with `:` has
its first space-delimited word removed (`dispatch`, lines 258-260). -/
def dropLeadSource (l : List Char) : List Char :=
  if l.head? = some ':' then afterFirstSpace l.tail else l

/-- Python `line.split(" :", 1)` when the separator occurs: the part before
the first occurrence of `" :"` and the part after it. -/
def splitSC : List Char → Option (List Char × List Char)
  | [] => none
  | c :: rest =>
    if c = ' ' ∧ rest.head? = some ':' then some ([], rest.tail)
    else (splitSC rest).map (fun p => (c :: p.1, p.2))

/-- Whether `" :"` occurs in the line (Python `" :" in line`). -/
def hasSC : List Char → Bool
  | [] => false
  | c :: rest => (decide (c = ' ' ∧ rest.head? = some ':')) || hasSC rest

/-- Python `str.split()` with no argument: split on whitespace runs,
discarding empty pieces.  Accumulator-based so the recursion is structural. -/
def wsSplitAux : List Char → List Char → List (List Char)
  | [], acc => if acc.isEmpty then [] else [acc.reverse]
  | c :: rest, acc =>
    if isWsC c then
      if acc.isEmpty then wsSplitAux rest [] else acc.reverse :: wsSplitAux rest []
    else wsSplitAux rest (c :: acc)

def wsSplit (l : List Char) : List (List Char) := wsSplitAux l []

/-- Tokenization rule of `dispatch` (lines 262-266): if `" :"` occurs,
split once there, whitespace-split the head and append the verbatim
trailing part; otherwise whitespace-split the whole line. -/
def parseTokens (l : List Char) : List (List Char) :=
  match splitSC l with
  | some p => wsSplit p.1 ++ [p.2]
  | none => wsSplit l

/-- Python `str.upper()` for one character (ASCII range, which is all a
command name contains). -/
def upChar (c : Char) : Char := if 'a' ≤ c ∧ c ≤ 'z' then Char.ofNat (c.toNat - 32) else c

def upList (l : List Char) : List Char := l.map upChar

/-- Python `str.upper()` (ASCII model of the source's `str.upper`). -/
def pyUpper (s : String) : String := String.mk (s.data.map upChar)

/-- The dispatcher's parse of one logical line (lines 257-272): strip a
leading `:source` word, tokenize, uppercase the first token as the
command; an empty token list is a no-op (`none`). -/
def parseLine (l : List Char) : Option (List Char × List (List Char)) :=
  match parseTokens (dropLeadSource l) with
  | [] => none
  | cmd :: ps => some (upList cmd, ps)

/-- Single-space join, Python `" ".join(parts)`. -/
def joinSp : List (List Char) → List Char
  | [] => []
  | [t] => t
  | t :: ts => t ++ ' ' :: joinSp ts

/-- `parts[-1] = ":" + parts[-1]` of `Client.send_from`. -/
def colonLast : List (List Char) → List (List Char)
  | [] => []
  | [p] => [':' :: p]
  | p :: ps => p :: colonLast ps

/-- `Client.send_from` (lines 197-201): prefix `:` to the last parameter
and render `":origin cmd p1 … :pn"` (with a literal space after the
command even when there are no parameters, as the f-string does). -/
def formatFrom (origin cmd : List Char) (params : List (List Char)) : List Char :=
  ':' :: origin ++ ' ' :: cmd ++ ' ' :: joinSp (colonLast params)

/-! ## Validation (src/app.py lines 98-102) -/

/-- First-character class of `valid_nick`'s regex: `[a-zA-Z\[\\\]^_`{|}]`. -/
def nickFirstOk (c : Char) : Bool :=
  c.isAlpha || c == '[' || c == '\\' || c == ']' || c == '^' || c == '_' ||
  c == backtickChar || c == lbraceChar || c == '|' || c == rbraceChar

/-- Remainder class: the first-character class plus digits and `-`. -/
def nickRestOk (c : Char) : Bool := nickFirstOk c || c.isDigit || c == '-'

/-- `valid_nick` (line 98): anchored regex, 1 + up to 29 characters. -/
def validNick (s : String) : Bool :=
  match s.data with
  | [] => false
  | c :: rest => nickFirstOk c && rest.all nickRestOk && rest.length ≤ 29

/-- Channel-body exclusion of `valid_channel`: not NUL, BEL, LF, CR, space, comma. -/
def chanBodyOk (c : Char) : Bool :=
  !(c == '\x00' || c == '\x07' || c == '\n' || c == '\r' || c == ' ' || c == ',')

/-- `valid_channel` (line 101): sigil then 1-49 body characters. -/
def validChannel (s : String) : Bool :=
  match s.data with
  | [] => false
  | c :: rest =>
    (c == '#' || c == '&' || c == '!' || c == '+') &&
    !rest.isEmpty && rest.length ≤ 49 && rest.all chanBodyOk

/-- Glob matching after the source's `pattern.replace("*", ".*").replace("?", ".")`
conversion, applied case-insensitively (`re.fullmatch(..., re.IGNORECASE)`).
`*` matches any sequence; `?` and a literal `.` in the original pattern both
become the regex any-character; every other character matches itself
(regex metacharacters other than those introduced by the conversion are
treated literally here). -/
def globMatchL : List Char → List Char → Bool
  | [], [] => true
  | [], _ :: _ => false
  | '*' :: ps, [] => globMatchL ps []
  | '*' :: ps, c :: ts => globMatchL ps (c :: ts) || globMatchL ('*' :: ps) ts
  | _ :: _, [] => false
  | p :: ps, c :: ts => (p == '?' || p == '.' || p == c) && globMatchL ps ts
termination_by p t => (t.length, p.length)

/-- Case-insensitive glob match on strings (ban masks, WHO masks). -/
def globMatch (pat s : String) : Bool :=
  globMatchL (pyLower pat).data (pyLower s).data

/-! ## Data model (src/app.py, classes `Channel` and `Client`) -/

/-- Numeric reply codes used below (src/app.py lines 34-95). -/
def RPL_WELCOME : String := "001"
def RPL_YOURHOST : String := "002"
def RPL_CREATED : String := "003"
def RPL_MYINFO : String := "004"
def RPL_MOTDSTART : String := "375"
def RPL_MOTD : String := "372"
def RPL_ENDOFMOTD : String := "376"
def RPL_NOTOPIC : String := "331"
def RPL_TOPIC : String := "332"
def RPL_NAMREPLY : String := "353"
def RPL_ENDOFNAMES : String := "366"
def RPL_LIST : String := "322"
def RPL_LISTEND : String := "323"
def RPL_WHOREPLY : String := "352"
def RPL_ENDOFWHO : String := "315"
def RPL_WHOISUSER : String := "311"
def RPL_WHOISSERVER : String := "312"
def RPL_WHOISCHANNELS : String := "319"
def RPL_ENDOFWHOIS : String := "318"
def RPL_CHANNELMODEIS : String := "324"
def RPL_INVITING : String := "341"
def RPL_BANLIST : String := "367"
def RPL_ENDOFBANLIST : String := "368"
def RPL_AWAY : String := "301"
def RPL_UNAWAY : String := "305"
def RPL_NOWAWAY : String := "306"
def RPL_INFO : String := "371"
def RPL_ENDOFINFO : String := "374"
def RPL_VERSION : String := "351"
def RPL_LUSERCLIENT : String := "251"
def RPL_LUSEROP : String := "252"
def RPL_LUSERUNKNOWN : String := "253"
def RPL_LUSERCHANNELS : String := "254"
def RPL_LUSERME : String := "255"
def RPL_TIME : String := "391"
def RPL_ISON : String := "303"
def RPL_USERHOST : String := "302"
def ERR_NOSUCHNICK : String := "401"
def ERR_NOSUCHCHANNEL : String := "403"
def ERR_CANNOTSENDTOCHAN : String := "404"
def ERR_UNKNOWNCOMMAND : String := "421"
def ERR_NONICKNAMEGIVEN : String := "431"
def ERR_ERRONEUSNICKNAME : String := "432"
def ERR_NICKNAMEINUSE : String := "433"
def ERR_USERNOTINCHANNEL : String := "441"
def ERR_NOTONCHANNEL : String := "442"
def ERR_NEEDMOREPARAMS : String := "461"
def ERR_ALREADYREGISTRED : String := "462"
def ERR_CHANNELISFULL : String := "471"
def ERR_INVITEONLYCHAN : String := "473"
def ERR_BANNEDFROMCHAN : String := "474"
def ERR_BADCHANNELKEY : String := "475"
def ERR_CHANOPRIVSNEEDED : String := "482"
def ERR_UMODEUNKNOWNFLAG : String := "501"
def ERR_USERSDONTMATCH : String := "502"
def ERR_NOPRIVILEGES : String := "481"

def SERVER_NAME : String := "SHINYA-IRC"
def SERVER_VERSION : String := "1.0"

def MOTD : List String :=
  ["*** Welcome to SHINYA-IRC v1.0 ***",
   "*** WebSocket IRC Server (RFC 1459) ***",
   "*** Have fun and be nice! ***"]

/-- `class Channel` (lines 105-119).  `members` mirrors the Python dict
nick → Client: a pair of the display nick and the owning connection's id
(object identity of the `Client` reference is the connection id). -/
structure Channel where
  name : String
  topic : String
  topicSetter : String
  topicTime : Nat
  members : List (String × Nat)
  ops : List String
  voices : List String
  modes : List Char
  key : Option String
  limit : Option Int
  invites : List String
  bans : List String
  created : Nat
deriving DecidableEq

def newChannel (name : String) (now : Nat) : Channel :=
  { name := name, topic := "", topicSetter := "", topicTime := 0,
    members := [], ops := [], voices := [], modes := [], key := none,
    limit := none, invites := [], bans := [], created := now }

/-- `Channel.add_member` (line 121): `members[client.nick] = client`. -/
def chAddMember (ch : Channel) (nick : String) (conn : Nat) : Channel :=
  { ch with members := aSet ch.members nick conn }

/-- `Channel.remove_member` (lines 124-127). -/
def chRemoveMember (ch : Channel) (nick : String) : Channel :=
  { ch with members := aPop ch.members nick,
            ops := sRemove ch.ops nick,
            voices := sRemove ch.voices nick }

/-- `Channel.rename_member` (lines 129-138).  A `del` followed by an
assignment moves the binding to the end of the dict. -/
def chRenameMember (ch : Channel) (oldNick newNick : String) (conn : Nat) : Channel :=
  let members :=
    if (aGet ch.members oldNick).isSome then
      aSet (aPop ch.members oldNick) newNick conn
    else ch.members
  let ops :=
    if ch.ops.contains oldNick then sInsert (sRemove ch.ops oldNick) newNick else ch.ops
  let voices :=
    if ch.voices.contains oldNick then sInsert (sRemove ch.voices oldNick) newNick else ch.voices
  { ch with members := members, ops := ops, voices := voices }

/-- `Channel.prefix_for` (lines 140-145). -/
def chPrefFor (ch : Channel) (nick : String) : String :=
  if ch.ops.contains nick then "@"
  else if ch.voices.contains nick then "+"
  else ""

/-- Insertion sort used to model Python `sorted` on mode letters. -/
def insChar (c : Char) : List Char → List Char
  | [] => [c]
  | d :: ds => if c ≤ d then c :: d :: ds else d :: insChar c ds

def sortChars (l : List Char) : List Char := l.foldr insChar []

/-- `Channel.mode_string` (lines 147-153). -/
def chModeString (ch : Channel) : String :=
  let m := "+" ++ String.mk (sortChars ch.modes)
  let m := match ch.key with
    | some k => if k ≠ "" then m ++ " " ++ k else m
    | none => m
  match ch.limit with
    | some l => m ++ " " ++ toString l
    | none => m

/-- `Channel.is_banned` (lines 155-159). -/
def chIsBanned (ch : Channel) (mask : String) : Bool :=
  ch.bans.any (fun ban => globMatch ban mask)

/-- `class Client` (lines 162-177).  The WebSocket handle is dropped;
identity is the connection id under which the record is stored. -/
structure Client where
  nick : String
  user : String
  realname : String
  host : String
  registered : Bool
  awayMsg : Option String
  channels : List String
  modes : List Char
  signon : Nat
  nickSet : Bool
  userSet : Bool
deriving DecidableEq

def freshClient (host : String) (now : Nat) : Client :=
  { nick := "*", user := "", realname := "", host := host,
    registered := false, awayMsg := none, channels := [], modes := [],
    signon := now, nickSet := false, userSet := false }

/-- `Client.mask` (lines 179-181). -/
def Client.mask (c : Client) : String := c.nick ++ "!" ++ c.user ++ "@" ++ c.host

/-- One outbound message.  `reply` is `Client.reply` (server-prefixed
numeric to `conn`); `line` is a raw `:origin cmd …` send where the last
parameter is the trailing text. -/
inductive Out where
  | reply (conn : Nat) (code : String) (params : List String)
  | line (conn : Nat) (origin : String) (cmd : String) (params : List String)
deriving DecidableEq

/-- `class IRCServer` state (lines 204-212) plus the ambient clock. -/
structure ServerState where
  name : String
  started : String
  now : Nat
  nowStr : String
  conns : List (Nat × Client)
  clients : List (String × Nat)
  channels : List (String × Channel)
deriving DecidableEq

def getConn (st : ServerState) (i : Nat) : Option Client := aGet st.conns i

def setConn (st : ServerState) (i : Nat) (c : Client) : ServerState :=
  { st with conns := aSet st.conns i c }

/-- A fresh server with no connections. -/
def initState : ServerState :=
  { name := SERVER_NAME, started := "2025-01-01 00:00:00 UTC", now := 0,
    nowStr := "2025-01-01 00:00:00 UTC", conns := [], clients := [], channels := [] }

/-- `IRCServer.handle` connection accept (lines 216-218): a fresh
unregistered client is added to the connection set. -/
def acceptConn (st : ServerState) (i : Nat) (host : String) : ServerState :=
  { st with conns := aSet st.conns i (freshClient host st.now) }

/-! ## Command handlers

Each `async def cmd_*` of `IRCServer` becomes a pure function
`ServerState → Nat → List String → ServerState × List Out` (the `Nat` is
the invoking connection).  `await client.send(...)`/`reply(...)` become
elements of the output list, in emission order. -/

/-- Python truthiness of an optional string (`None` and `""` are falsy). -/
def pyFalsyOpt : Option String → Bool
  | none => true
  | some s => s == ""

/-- `IRCServer.send_motd` (lines 347-351). -/
def send_motd (st : ServerState) (conn : Nat) : List Out :=
  [Out.reply conn RPL_MOTDSTART ["- " ++ st.name ++ " Message of the Day -"]]
  ++ MOTD.map (fun l => Out.reply conn RPL_MOTD ["- " ++ l])
  ++ [Out.reply conn RPL_ENDOFMOTD ["End of /MOTD command"]]

/-- `IRCServer.send_lusers` (lines 353-363). -/
def send_lusers (st : ServerState) (conn : Nat) : List Out :=
  let reg := st.clients.length
  let unk := st.conns.length - reg
  let ops := ((st.clients.filterMap (fun p => getConn st p.2)).filter
    (fun c => c.modes.contains 'o')).length
  [Out.reply conn RPL_LUSERCLIENT
      ["There are " ++ toString reg ++ " users and 0 invisible on 1 servers"]]
  ++ (if ops ≠ 0 then [Out.reply conn RPL_LUSEROP [toString ops, "IRC Operators online"]] else [])
  ++ (if unk ≠ 0 then [Out.reply conn RPL_LUSERUNKNOWN [toString unk, "unknown connection(s)"]] else [])
  ++ [Out.reply conn RPL_LUSERCHANNELS [toString st.channels.length, "channels formed"],
      Out.reply conn RPL_LUSERME ["I have " ++ toString reg ++ " clients and 1 servers"]]

/-- `IRCServer.try_register` (lines 335-345): once both latches are set,
mark registered, install in the nick registry, emit the welcome burst. -/
def try_register (st : ServerState) (conn : Nat) : ServerState × List Out :=
  match getConn st conn with
  | none => (st, [])
  | some client =>
    if !(client.nickSet && client.userSet) then (st, [])
    else
      let client1 := { client with registered := true }
      let st1 := setConn st conn client1
      let st2 := { st1 with clients := aSet st1.clients client1.nick conn }
      (st2,
        [Out.reply conn RPL_WELCOME ["Welcome to " ++ st2.name ++ " " ++ client1.mask],
         Out.reply conn RPL_YOURHOST
           ["Your host is " ++ st2.name ++ ", running version " ++ SERVER_VERSION],
         Out.reply conn RPL_CREATED ["This server was created " ++ st2.started],
         Out.reply conn RPL_MYINFO [st2.name, SERVER_VERSION, "o", "imnopqrstv"]]
        ++ send_motd st2 conn ++ send_lusers st2 conn)

/-- `IRCServer.cmd_NICK` (lines 290-321).  The collision check consults
only the registered-nick registry `self.clients`, case-insensitively,
with an exact-equality exemption against the client's own current nick. -/
def cmd_NICK (st : ServerState) (conn : Nat) (params : List String) : ServerState × List Out :=
  match getConn st conn with
  | none => (st, [])
  | some client =>
    match params with
    | [] => (st, [Out.reply conn ERR_NONICKNAMEGIVEN ["No nickname given"]])
    | nick :: _ =>
      if !(validNick nick) then
        (st, [Out.reply conn ERR_ERRONEUSNICKNAME [nick, "Erroneous nickname"]])
      else if (st.clients.map (fun p => pyLower p.1)).contains (pyLower nick) && nick ≠ client.nick then
        (st, [Out.reply conn ERR_NICKNAMEINUSE [nick, "Nickname is already in use"]])
      else
        let oldNick := client.nick
        let oldMask := client.mask
        if client.registered then
          let clients1 := aSet (aPop st.clients oldNick) nick conn
          let client1 := { client with nick := nick }
          let st1 := setConn { st with clients := clients1 } conn client1
          let step := fun (acc : ServerState × List Nat) (chName : String) =>
            match aGet acc.1.channels chName with
            | none => acc
            | some ch =>
              let ch1 := chRenameMember ch oldNick nick conn
              ({ acc.1 with channels := aSet acc.1.channels chName ch1 },
               ch1.members.foldl (fun a m => sInsert a m.2) acc.2)
          let r := client1.channels.foldl step (st1, [conn])
          (r.1, r.2.map (fun d => Out.line d oldMask "NICK" [nick]))
        else
          let client1 := { client with nick := nick, nickSet := true }
          try_register (setConn st conn client1) conn

/-- `IRCServer.cmd_USER` (lines 323-333). -/
def cmd_USER (st : ServerState) (conn : Nat) (params : List String) : ServerState × List Out :=
  match getConn st conn with
  | none => (st, [])
  | some client =>
    if client.registered then
      (st, [Out.reply conn ERR_ALREADYREGISTRED ["You may not reregister"]])
    else if params.length < 4 then
      (st, [Out.reply conn ERR_NEEDMOREPARAMS ["USER", "Not enough parameters"]])
    else
      let client1 := { client with user := pyTake (params.getD 0 "") 10,
                                   realname := params.getD 3 "", userSet := true }
      try_register (setConn st conn client1) conn

/-- `IRCServer.cmd_CAP` (lines 282-288). -/
def cmd_CAP (st : ServerState) (conn : Nat) (params : List String) : ServerState × List Out :=
  match getConn st conn with
  | none => (st, [])
  | some _ =>
    let sub := pyUpper (params.headD "")
    if sub = "LS" then (st, [Out.line conn st.name "CAP" ["*", "LS", ""]])
    else (st, [])

/-- `IRCServer.cmd_PING` (lines 365-367). -/
def cmd_PING (st : ServerState) (conn : Nat) (params : List String) : ServerState × List Out :=
  match getConn st conn with
  | none => (st, [])
  | some _ =>
    let token := params.headD st.name
    (st, [Out.line conn st.name "PONG" [st.name, token]])

/-- `IRCServer.cmd_PONG` (lines 369-370). -/
def cmd_PONG (st : ServerState) (_conn : Nat) (_params : List String) : ServerState × List Out :=
  (st, [])

/-- `IRCServer.broadcast_quit` (lines 799-811): notify each distinct
co-channel peer once, prune membership, delete emptied channels. -/
def broadcast_quit (st : ServerState) (conn : Nat) (msg : String) : ServerState × List Out :=
  match getConn st conn with
  | none => (st, [])
  | some client =>
    let step := fun (acc : ServerState × List Nat × List Out) (chName : String) =>
      match aGet acc.1.channels chName with
      | none => acc
      | some ch =>
        let notified1 := ch.members.foldl
          (fun (a : List Nat × List Out) m =>
            if m.2 ≠ conn ∧ ¬ a.1.contains m.2 then
              (a.1 ++ [m.2], a.2 ++ [Out.line m.2 client.mask "QUIT" [msg]])
            else a)
          (acc.2.1, acc.2.2)
        let ch1 := chRemoveMember ch client.nick
        let s1 := match getConn acc.1 conn with
          | some c => setConn acc.1 conn { c with channels := sRemove c.channels chName }
          | none => acc.1
        let s2 := if ch1.members.isEmpty then { s1 with channels := aPop s1.channels chName }
                  else { s1 with channels := aSet s1.channels chName ch1 }
        (s2, notified1)
    let r := client.channels.foldl step (st, [], [])
    (r.1, r.2.2)

/-- `IRCServer.cleanup` (lines 244-253). -/
def cleanup (st : ServerState) (conn : Nat) (quitMsg : String) : ServerState × List Out :=
  match getConn st conn with
  | none => (st, [])
  | some client =>
    let r := if client.registered then broadcast_quit st conn quitMsg else (st, [])
    match getConn r.1 conn with
    | none => r
    | some client1 =>
      let st2 := { r.1 with clients := aPop r.1.clients client1.nick }
      let st3 := client1.channels.foldl
        (fun (s : ServerState) chName =>
          match aGet s.channels chName with
          | none => s
          | some ch =>
            let ch1 := chRemoveMember ch client1.nick
            if ch1.members.isEmpty then { s with channels := aPop s.channels chName }
            else { s with channels := aSet s.channels chName ch1 })
        st2
      (st3, r.2)

/-- `IRCServer.cmd_QUIT` (lines 372-378); the transport close is dropped. -/
def cmd_QUIT (st : ServerState) (conn : Nat) (params : List String) : ServerState × List Out :=
  cleanup st conn (params.headD "Quit")

/-- `IRCServer.send_names` (lines 440-443). -/
def send_names (_st : ServerState) (conn : Nat) (ch : Channel) : List Out :=
  let names := String.intercalate " " (ch.members.map (fun m => chPrefFor ch m.1 ++ m.1))
  [Out.reply conn RPL_NAMREPLY ["=", ch.name, names],
   Out.reply conn RPL_ENDOFNAMES [ch.name, "End of /NAMES list"]]

/-- The `+l` gate of `cmd_JOIN` (line 407): `"l" in ch.modes and ch.limit
and len(ch.members) >= ch.limit` with Python truthiness of the limit. -/
def chFull (ch : Channel) : Bool :=
  ch.modes.contains 'l' &&
  (match ch.limit with
   | some l => l ≠ 0 && (ch.members.length : Int) ≥ l
   | none => false)

/-- The `+k` gate (line 410): `"k" in ch.modes and ch.key and key != ch.key`. -/
def chBadKey (ch : Channel) (key : Option String) : Bool :=
  ch.modes.contains 'k' &&
  (match ch.key with
   | some k => k ≠ "" && key ≠ some k
   | none => false)

/-- The `+i` gate (line 413): `"i" in ch.modes and client.nick not in ch.invites`. -/
def chNotInvited (ch : Channel) (nick : String) : Bool :=
  ch.modes.contains 'i' && !(ch.invites.contains nick)

/-- The body of `cmd_JOIN`'s per-channel loop (lines 390-438): validate,
create if absent, apply the `l`/`k`/`i`/ban gates in order, add the member
(first member becomes operator), broadcast the JOIN, send topic and names. -/
def joinOne (st : ServerState) (conn : Nat) (chName : String) (key : Option String) :
    ServerState × List Out :=
  match getConn st conn with
  | none => (st, [])
  | some client =>
    if !(validChannel chName) then
      (st, [Out.reply conn ERR_NOSUCHCHANNEL [chName, "No such channel"]])
    else
      let lk := (pyLower chName)
      let chSt :=
        match aGet st.channels lk with
        | some ch => (ch, st)
        | none =>
          let ch := newChannel chName st.now
          (ch, { st with channels := aSet st.channels lk ch })
      let ch := chSt.1
      let st1 := chSt.2
      if client.channels.contains lk then (st1, [])
      else if chFull ch then
        (st1, [Out.reply conn ERR_CHANNELISFULL [chName, "Cannot join channel (+l)"]])
      else if chBadKey ch key then
        (st1, [Out.reply conn ERR_BADCHANNELKEY [chName, "Cannot join channel (+k)"]])
      else if chNotInvited ch client.nick then
        (st1, [Out.reply conn ERR_INVITEONLYCHAN [chName, "Cannot join channel (+i)"]])
      else if chIsBanned ch client.mask then
        (st1, [Out.reply conn ERR_BANNEDFROMCHAN [chName, "Cannot join channel (+b)"]])
      else
        let first := ch.members.isEmpty
        let ch1 := chAddMember ch client.nick conn
        let client1 := { client with channels := sInsert client.channels lk }
        let ch2 := if first then { ch1 with ops := sInsert ch1.ops client.nick } else ch1
        let st2 := setConn { st1 with channels := aSet st1.channels lk ch2 } conn client1
        let joinOuts := ch2.members.map (fun m => Out.line m.2 client.mask "JOIN" [chName])
        let topicOut :=
          if ch2.topic ≠ "" then Out.reply conn RPL_TOPIC [chName, ch2.topic]
          else Out.reply conn RPL_NOTOPIC [chName, "No topic is set"]
        (st2, joinOuts ++ [topicOut] ++ send_names st2 conn ch2)

/-- `IRCServer.cmd_JOIN` (lines 380-438): registered-only; comma-split
channels and keys, positionally paired; each stripped, empties skipped. -/
def cmd_JOIN (st : ServerState) (conn : Nat) (params : List String) : ServerState × List Out :=
  match getConn st conn with
  | none => (st, [])
  | some client =>
    if !client.registered then (st, [])
    else match params with
    | [] => (st, [Out.reply conn ERR_NEEDMOREPARAMS ["JOIN", "Not enough parameters"]])
    | chansArg :: restParams =>
      let chans := pySplitComma chansArg
      let keys := match restParams.head? with
        | some ks => pySplitComma ks
        | none => ([] : List String)
      chans.enum.foldl
        (fun (acc : ServerState × List Out) p =>
          let name := pyStrip p.2
          if name = "" then acc
          else
            let r := joinOne acc.1 conn name (keys.get? p.1)
            (r.1, acc.2 ++ r.2))
        (st, [])

/-- `IRCServer.cmd_PART` (lines 445-464): per channel, `ERR_NOSUCHCHANNEL`
or `ERR_NOTONCHANNEL`, else broadcast the PART, remove the member, and
delete the channel when its last member left. -/
def cmd_PART (st : ServerState) (conn : Nat) (params : List String) : ServerState × List Out :=
  match getConn st conn with
  | none => (st, [])
  | some client =>
    match params with
    | [] => (st, [Out.reply conn ERR_NEEDMOREPARAMS ["PART", "Not enough parameters"]])
    | chansArg :: rest =>
      let msg := rest.headD client.nick
      (pySplitComma chansArg).foldl
        (fun (acc : ServerState × List Out) chName =>
          match aGet acc.1.channels (pyLower chName) with
          | none => (acc.1, acc.2 ++ [Out.reply conn ERR_NOSUCHCHANNEL [chName, "No such channel"]])
          | some ch =>
            match getConn acc.1 conn with
            | none => acc
            | some c =>
              if !(c.channels.contains (pyLower chName)) then
                (acc.1, acc.2 ++ [Out.reply conn ERR_NOTONCHANNEL [chName, "You're not on that channel"]])
              else
                let outs := ch.members.map (fun m => Out.line m.2 c.mask "PART" [chName, msg])
                let ch1 := chRemoveMember ch c.nick
                let c1 := { c with channels := sRemove c.channels (pyLower chName) }
                let s1 := setConn acc.1 conn c1
                let s2 := if ch1.members.isEmpty then
                            { s1 with channels := aPop s1.channels (pyLower chName) }
                          else { s1 with channels := aSet s1.channels (pyLower chName) ch1 }
                (s2, acc.2 ++ outs))
        (st, [])

/-- `IRCServer._send_message` (lines 472-502), shared by PRIVMSG and
NOTICE.  It mutates no server state, so it returns only the outputs. -/
def send_message (st : ServerState) (conn : Nat) (params : List String) (cmd : String) : List Out :=
  match getConn st conn with
  | none => []
  | some client =>
    if !client.registered then []
    else if params.length < 2 then
      [Out.reply conn ERR_NEEDMOREPARAMS [cmd, "Not enough parameters"]]
    else
      let target := params.getD 0 ""
      let text := params.getD 1 ""
      if startsSigil target then
        match aGet st.channels (pyLower target) with
        | none => [Out.reply conn ERR_NOSUCHCHANNEL [target, "No such channel"]]
        | some ch =>
          if ch.modes.contains 'n' && !(client.channels.contains (pyLower target)) then
            [Out.reply conn ERR_CANNOTSENDTOCHAN [target, "Cannot send to channel"]]
          else if ch.modes.contains 'm' && !(ch.ops.contains client.nick) &&
                  !(ch.voices.contains client.nick) then
            [Out.reply conn ERR_CANNOTSENDTOCHAN [target, "Cannot send to channel (+m)"]]
          else
            (ch.members.filter (fun m => m.2 ≠ conn)).map
              (fun m => Out.line m.2 client.mask cmd [target, text])
      else
        match aGet st.clients target with
        | none => [Out.reply conn ERR_NOSUCHNICK [target, "No such nick/channel"]]
        | some destConn =>
          let awayOuts :=
            match getConn st destConn with
            | some dest =>
              if !(pyFalsyOpt dest.awayMsg) && cmd = "PRIVMSG" then
                [Out.reply conn RPL_AWAY [target, dest.awayMsg.getD ""]]
              else []
            | none => []
          awayOuts ++ [Out.line destConn client.mask cmd [target, text]]

/-- `IRCServer.cmd_PRIVMSG` (lines 466-467). -/
def cmd_PRIVMSG (st : ServerState) (conn : Nat) (params : List String) : ServerState × List Out :=
  (st, send_message st conn params "PRIVMSG")

/-- `IRCServer.cmd_NOTICE` (lines 469-470): the same `_send_message`. -/
def cmd_NOTICE (st : ServerState) (conn : Nat) (params : List String) : ServerState × List Out :=
  (st, send_message st conn params "NOTICE")

/-- `IRCServer.cmd_TOPIC` (lines 504-526). -/
def cmd_TOPIC (st : ServerState) (conn : Nat) (params : List String) : ServerState × List Out :=
  match getConn st conn with
  | none => (st, [])
  | some client =>
    match params with
    | [] => (st, [Out.reply conn ERR_NEEDMOREPARAMS ["TOPIC", "Not enough parameters"]])
    | chName :: rest =>
      match aGet st.channels (pyLower chName) with
      | none => (st, [Out.reply conn ERR_NOSUCHCHANNEL [chName, "No such channel"]])
      | some ch =>
        if rest.isEmpty then
          (st, [if ch.topic ≠ "" then Out.reply conn RPL_TOPIC [chName, ch.topic]
                else Out.reply conn RPL_NOTOPIC [chName, "No topic is set"]])
        else if ch.modes.contains 't' && !(ch.ops.contains client.nick) then
          (st, [Out.reply conn ERR_CHANOPRIVSNEEDED [chName, "You're not channel operator"]])
        else
          let ch1 := { ch with topic := rest.headD "", topicSetter := client.nick,
                               topicTime := st.now }
          ({ st with channels := aSet st.channels (pyLower chName) ch1 },
           ch1.members.map (fun m => Out.line m.2 client.mask "TOPIC" [chName, ch1.topic]))

/-- `IRCServer.cmd_NAMES` (lines 528-536). -/
def cmd_NAMES (st : ServerState) (conn : Nat) (params : List String) : ServerState × List Out :=
  match getConn st conn with
  | none => (st, [])
  | some _ =>
    match params with
    | [] => (st, st.channels.foldl (fun outs p => outs ++ send_names st conn p.2) [])
    | arg :: _ =>
      (st, (pySplitComma arg).foldl
        (fun outs chName =>
          match aGet st.channels (pyLower chName) with
          | some ch => outs ++ send_names st conn ch
          | none => outs) [])

/-- `IRCServer.cmd_LIST` (lines 538-541): note there is no registration
gate here — the handler runs for any connection. -/
def cmd_LIST (st : ServerState) (conn : Nat) (_params : List String) : ServerState × List Out :=
  match getConn st conn with
  | none => (st, [])
  | some _ =>
    (st, st.channels.map (fun p =>
           Out.reply conn RPL_LIST [p.2.name, toString p.2.members.length, p.2.topic])
         ++ [Out.reply conn RPL_LISTEND ["End of /LIST"]])

/-- `IRCServer.cmd_INVITE` (lines 543-562). -/
def cmd_INVITE (st : ServerState) (conn : Nat) (params : List String) : ServerState × List Out :=
  match getConn st conn with
  | none => (st, [])
  | some client =>
    if params.length < 2 then
      (st, [Out.reply conn ERR_NEEDMOREPARAMS ["INVITE", "Not enough parameters"]])
    else
      let nick := params.getD 0 ""
      let chName := params.getD 1 ""
      let chOpt := aGet st.channels (pyLower chName)
      if chOpt.isSome && !(client.channels.contains (pyLower chName)) then
        (st, [Out.reply conn ERR_NOTONCHANNEL [chName, "You're not on that channel"]])
      else if (match chOpt with
               | some ch => ch.modes.contains 'i' && !(ch.ops.contains client.nick)
               | none => false) then
        (st, [Out.reply conn ERR_CHANOPRIVSNEEDED [chName, "You're not channel operator"]])
      else
        match aGet st.clients nick with
        | none => (st, [Out.reply conn ERR_NOSUCHNICK [nick, "No such nick/channel"]])
        | some tconn =>
          let st1 := match chOpt with
            | some ch =>
              let ch1 := { ch with invites := sInsert ch.invites nick }
              { st with channels := aSet st.channels (pyLower chName) ch1 }
            | none => st
          (st1, [Out.reply conn RPL_INVITING [nick, chName],
                 Out.line tconn client.mask "INVITE" [nick, chName]])

/-- `IRCServer.cmd_KICK` (lines 564-587).  Note the handler removes the
member but — unlike PART/QUIT/cleanup — never deletes an emptied channel. -/
def cmd_KICK (st : ServerState) (conn : Nat) (params : List String) : ServerState × List Out :=
  match getConn st conn with
  | none => (st, [])
  | some client =>
    if params.length < 2 then
      (st, [Out.reply conn ERR_NEEDMOREPARAMS ["KICK", "Not enough parameters"]])
    else
      let chName := params.getD 0 ""
      let nick := params.getD 1 ""
      let reason := params.getD 2 client.nick
      match aGet st.channels (pyLower chName) with
      | none => (st, [Out.reply conn ERR_NOSUCHCHANNEL [chName, "No such channel"]])
      | some ch =>
        if !(client.channels.contains (pyLower chName)) then
          (st, [Out.reply conn ERR_NOTONCHANNEL [chName, "You're not on that channel"]])
        else if !(ch.ops.contains client.nick) then
          (st, [Out.reply conn ERR_CHANOPRIVSNEEDED [chName, "You're not channel operator"]])
        else
          match aGet st.clients nick with
          | none => (st, [Out.reply conn ERR_USERNOTINCHANNEL [nick, chName, "They aren't on that channel"]])
          | some tconn =>
            match getConn st tconn with
            | none => (st, [Out.reply conn ERR_USERNOTINCHANNEL [nick, chName, "They aren't on that channel"]])
            | some target =>
              if !(target.channels.contains (pyLower chName)) then
                (st, [Out.reply conn ERR_USERNOTINCHANNEL [nick, chName, "They aren't on that channel"]])
              else
                let outs := ch.members.map (fun m =>
                  Out.line m.2 client.mask "KICK" [chName, nick, reason])
                let ch1 := chRemoveMember ch nick
                let target1 := { target with channels := sRemove target.channels (pyLower chName) }
                let st1 := setConn { st with channels := aSet st.channels (pyLower chName) ch1 }
                             tconn target1
                (st1, outs)

/-- `IRCServer.handle_user_mode` (lines 600-625). -/
def handle_user_mode (st : ServerState) (conn : Nat) (target : String)
    (modeParams : List String) : ServerState × List Out :=
  match getConn st conn with
  | none => (st, [])
  | some client =>
    if target ≠ client.nick && !(client.modes.contains 'o') then
      (st, [Out.reply conn ERR_USERSDONTMATCH ["Cannot change mode for other users"]])
    else
      match aGet st.clients target with
      | none => (st, [Out.reply conn ERR_NOSUCHNICK [target, "No such nick"]])
      | some tconn =>
        match getConn st tconn with
        | none => (st, [])
        | some t =>
          match modeParams with
          | [] => (st, [Out.line conn st.name "221" [client.nick, "+" ++ String.mk (sortChars t.modes)]])
          | modeStr :: _ =>
            let r := modeStr.data.foldl
              (fun (acc : Bool × List Char × List Out) c =>
                if c = '+' then (true, acc.2.1, acc.2.2)
                else if c = '-' then (false, acc.2.1, acc.2.2)
                else if c = 'i' ∨ c = 'o' then
                  (acc.1, (if acc.1 then sInsert acc.2.1 c else sRemove acc.2.1 c), acc.2.2)
                else
                  (acc.1, acc.2.1,
                   acc.2.2 ++ [Out.reply conn ERR_UMODEUNKNOWNFLAG ["Unknown MODE flag"]]))
              (true, t.modes, [])
            let st1 := setConn st tconn { t with modes := r.2.1 }
            (st1, r.2.2 ++ [Out.line conn client.mask "MODE" [target, modeStr]])

/-- Accumulator for the per-letter loop of `handle_channel_mode`
(lines 639-706): the `adding` toggle, remaining positional parameters,
applied letters, the channel being mutated, and emitted messages. -/
structure ModeAcc where
  adding : Bool
  mp : List String
  applied : List Char
  ch : Channel
  outs : List Out

/-- One letter of `handle_channel_mode`'s loop (lines 643-706). -/
def chanModeStep (conn : Nat) (mask chName : String) (acc : ModeAcc) (c : Char) : ModeAcc :=
  if c = '+' then { acc with adding := true, applied := acc.applied ++ ['+'] }
  else if c = '-' then { acc with adding := false, applied := acc.applied ++ ['-'] }
  else if c = 'm' ∨ c = 'n' ∨ c = 't' ∨ c = 'i' ∨ c = 's' ∨ c = 'p' then
    { acc with
      ch := { acc.ch with modes := if acc.adding then sInsert acc.ch.modes c
                                   else sRemove acc.ch.modes c },
      applied := acc.applied ++ [c] }
  else if c = 'k' then
    if acc.adding then
      match acc.mp with
      | k :: mpRest =>
        { acc with ch := { acc.ch with modes := sInsert acc.ch.modes 'k', key := some k },
                   mp := mpRest, applied := acc.applied ++ ['k'] }
      | [] => acc
    else
      { acc with ch := { acc.ch with modes := sRemove acc.ch.modes 'k', key := none },
                 applied := acc.applied ++ ['k'] }
  else if c = 'l' then
    if acc.adding then
      match acc.mp with
      | v :: mpRest =>
        match v.toInt? with
        | some n =>
          { acc with ch := { acc.ch with limit := some n, modes := sInsert acc.ch.modes 'l' },
                     mp := mpRest, applied := acc.applied ++ ['l'] }
        | none => { acc with mp := mpRest }
      | [] => acc
    else
      { acc with ch := { acc.ch with modes := sRemove acc.ch.modes 'l', limit := none },
                 applied := acc.applied ++ ['l'] }
  else if c = 'o' then
    match acc.mp with
    | nick :: mpRest =>
      if (aGet acc.ch.members nick).isSome then
        { acc with
          ch := { acc.ch with ops := if acc.adding then sInsert acc.ch.ops nick
                                     else sRemove acc.ch.ops nick },
          mp := mpRest, applied := acc.applied ++ ['o'],
          outs := acc.outs ++ acc.ch.members.map (fun m =>
            Out.line m.2 mask "MODE" [chName, (if acc.adding then "+" else "-") ++ "o", nick]) }
      else { acc with mp := mpRest }
    | [] => acc
  else if c = 'v' then
    match acc.mp with
    | nick :: mpRest =>
      if (aGet acc.ch.members nick).isSome then
        { acc with
          ch := { acc.ch with voices := if acc.adding then sInsert acc.ch.voices nick
                                        else sRemove acc.ch.voices nick },
          mp := mpRest, applied := acc.applied ++ ['v'],
          outs := acc.outs ++ acc.ch.members.map (fun m =>
            Out.line m.2 mask "MODE" [chName, (if acc.adding then "+" else "-") ++ "v", nick]) }
      else { acc with mp := mpRest }
    | [] => acc
  else if c = 'b' then
    match acc.mp with
    | ban :: mpRest =>
      let bans1 := if acc.adding then
                     (if acc.ch.bans.contains ban then acc.ch.bans else acc.ch.bans ++ [ban])
                   else acc.ch.bans.filter (fun b => !(b == ban))
      { acc with ch := { acc.ch with bans := bans1 }, mp := mpRest,
                 outs := acc.outs ++ acc.ch.members.map (fun m =>
                   Out.line m.2 mask "MODE" [chName, (if acc.adding then "+" else "-") ++ "b", ban]) }
    | [] =>
      { acc with outs := acc.outs
          ++ acc.ch.bans.map (fun b => Out.reply conn RPL_BANLIST [chName, b])
          ++ [Out.reply conn RPL_ENDOFBANLIST [chName, "End of channel ban list"]] }
  else acc

/-- `mode_applied.strip("+-")` of line 709. -/
def stripPM (l : List Char) : List Char :=
  ((l.dropWhile (fun c => c == '+' || c == '-')).reverse.dropWhile
    (fun c => c == '+' || c == '-')).reverse

/-- `IRCServer.handle_channel_mode` (lines 627-711). -/
def handle_channel_mode (st : ServerState) (conn : Nat) (chName : String)
    (modeParams : List String) : ServerState × List Out :=
  match getConn st conn with
  | none => (st, [])
  | some client =>
    match aGet st.channels (pyLower chName) with
    | none => (st, [Out.reply conn ERR_NOSUCHCHANNEL [chName, "No such channel"]])
    | some ch =>
      match modeParams with
      | [] => (st, [Out.reply conn RPL_CHANNELMODEIS [chName, chModeString ch]])
      | modeStr :: mpRest =>
        if !(ch.ops.contains client.nick) && !(client.modes.contains 'o') then
          (st, [Out.reply conn ERR_CHANOPRIVSNEEDED [chName, "You're not channel operator"]])
        else
          let acc0 : ModeAcc :=
            { adding := true, mp := mpRest, applied := [], ch := ch, outs := [] }
          let acc := modeStr.data.foldl (chanModeStep conn client.mask chName) acc0
          let st1 := { st with channels := aSet st.channels (pyLower chName) acc.ch }
          let finalOuts :=
            if !(stripPM acc.applied).isEmpty then
              acc.ch.members.map (fun m =>
                Out.line m.2 client.mask "MODE" [chName, String.mk acc.applied])
            else []
          (st1, acc.outs ++ finalOuts)

/-- `IRCServer.cmd_MODE` (lines 589-598). -/
def cmd_MODE (st : ServerState) (conn : Nat) (params : List String) : ServerState × List Out :=
  match getConn st conn with
  | none => (st, [])
  | some _ =>
    match params with
    | [] => (st, [Out.reply conn ERR_NEEDMOREPARAMS ["MODE", "Not enough parameters"]])
    | target :: rest =>
      if startsSigil target then
        handle_channel_mode st conn target rest
      else
        handle_user_mode st conn target rest

/-- `IRCServer.cmd_WHO` (lines 713-732). -/
def cmd_WHO (st : ServerState) (conn : Nat) (params : List String) : ServerState × List Out :=
  match getConn st conn with
  | none => (st, [])
  | some _ =>
    match params with
    | [] => (st, [])
    | maskArg :: _ =>
      match aGet st.channels (pyLower maskArg) with
      | some ch =>
        (st, (ch.members.filterMap (fun m =>
                (getConn st m.2).map (fun member =>
                  Out.reply conn RPL_WHOREPLY [ch.name, member.user, member.host, st.name, m.1,
                    (if pyFalsyOpt member.awayMsg then "H" else "G")
                      ++ (if ch.ops.contains m.1 then "@" else ""),
                    "0 " ++ member.realname])))
             ++ [Out.reply conn RPL_ENDOFWHO [maskArg, "End of /WHO list"]])
      | none =>
        (st, (st.clients.filterMap (fun p =>
                if globMatch maskArg p.1 then
                  (getConn st p.2).map (fun member =>
                    Out.reply conn RPL_WHOREPLY ["*", member.user, member.host, st.name, p.1,
                      (if pyFalsyOpt member.awayMsg then "H" else "G"),
                      "0 " ++ member.realname])
                else none))
             ++ [Out.reply conn RPL_ENDOFWHO [maskArg, "End of /WHO list"]])

/-- `IRCServer.cmd_WHOIS` (lines 734-752): the target nick is looked up
in `self.clients` by exact key. -/
def cmd_WHOIS (st : ServerState) (conn : Nat) (params : List String) : ServerState × List Out :=
  match getConn st conn with
  | none => (st, [])
  | some _ =>
    match params with
    | [] => (st, [Out.reply conn ERR_NEEDMOREPARAMS ["WHOIS", "Not enough parameters"]])
    | nick :: _ =>
      match aGet st.clients nick with
      | none => (st, [Out.reply conn ERR_NOSUCHNICK [nick, "No such nick/channel"]])
      | some tconn =>
        match getConn st tconn with
        | none => (st, [Out.reply conn ERR_NOSUCHNICK [nick, "No such nick/channel"]])
        | some target =>
          let chans := String.intercalate " " (st.channels.filterMap (fun p =>
            if (aGet p.2.members nick).isSome then some (chPrefFor p.2 nick ++ p.2.name)
            else none))
          (st, [Out.reply conn RPL_WHOISUSER [nick, target.user, target.host, "*", target.realname],
                Out.reply conn RPL_WHOISSERVER [nick, st.name, "WebSocket IRCd"]]
               ++ (if chans ≠ "" then [Out.reply conn RPL_WHOISCHANNELS [nick, chans]] else [])
               ++ [Out.reply conn RPL_ENDOFWHOIS [nick, "End of /WHOIS list"]])

/-- `IRCServer.cmd_AWAY` (lines 754-760). -/
def cmd_AWAY (st : ServerState) (conn : Nat) (params : List String) : ServerState × List Out :=
  match getConn st conn with
  | none => (st, [])
  | some client =>
    match params with
    | msg :: _ =>
      (setConn st conn { client with awayMsg := some msg },
       [Out.reply conn RPL_NOWAWAY ["You have been marked as being away"]])
    | [] =>
      (setConn st conn { client with awayMsg := none },
       [Out.reply conn RPL_UNAWAY ["You are no longer marked as being away"]])

/-- `IRCServer.cmd_ISON` (lines 762-764). -/
def cmd_ISON (st : ServerState) (conn : Nat) (params : List String) : ServerState × List Out :=
  match getConn st conn with
  | none => (st, [])
  | some _ =>
    (st, [Out.reply conn RPL_ISON
           [String.intercalate " " (params.filter (fun n => (aGet st.clients n).isSome))]])

/-- `IRCServer.cmd_USERHOST` (lines 766-773). -/
def cmd_USERHOST (st : ServerState) (conn : Nat) (params : List String) : ServerState × List Out :=
  match getConn st conn with
  | none => (st, [])
  | some _ =>
    let results := (params.take 5).filterMap (fun nick =>
      (aGet st.clients nick).bind (fun tc => (getConn st tc).map (fun c =>
        nick ++ "=" ++ (if pyFalsyOpt c.awayMsg then "+" else "-") ++ c.user ++ "@" ++ c.host)))
    (st, [Out.reply conn RPL_USERHOST [String.intercalate " " results]])

/-- `IRCServer.cmd_VERSION` (lines 775-776). -/
def cmd_VERSION (st : ServerState) (conn : Nat) (_params : List String) : ServerState × List Out :=
  match getConn st conn with
  | none => (st, [])
  | some _ => (st, [Out.reply conn RPL_VERSION [SERVER_VERSION ++ "." ++ st.name, st.name, ""]])

/-- `IRCServer.cmd_TIME` (lines 778-779). -/
def cmd_TIME (st : ServerState) (conn : Nat) (_params : List String) : ServerState × List Out :=
  match getConn st conn with
  | none => (st, [])
  | some _ => (st, [Out.reply conn RPL_TIME [st.name, st.nowStr]])

/-- `IRCServer.cmd_INFO` (lines 781-785). -/
def cmd_INFO (st : ServerState) (conn : Nat) (_params : List String) : ServerState × List Out :=
  match getConn st conn with
  | none => (st, [])
  | some _ =>
    (st, [Out.reply conn RPL_INFO [SERVER_NAME ++ " v" ++ SERVER_VERSION],
          Out.reply conn RPL_INFO ["WebSocket-based IRC server written in Python"],
          Out.reply conn RPL_INFO ["Running since " ++ st.started],
          Out.reply conn RPL_ENDOFINFO ["End of /INFO list"]])

/-- `IRCServer.cmd_LUSERS` (lines 787-788). -/
def cmd_LUSERS (st : ServerState) (conn : Nat) (_params : List String) : ServerState × List Out :=
  match getConn st conn with
  | none => (st, [])
  | some _ => (st, send_lusers st conn)

/-- `IRCServer.cmd_MOTD` (lines 790-791). -/
def cmd_MOTD (st : ServerState) (conn : Nat) (_params : List String) : ServerState × List Out :=
  match getConn st conn with
  | none => (st, [])
  | some _ => (st, send_motd st conn)

/-- `IRCServer.cmd_OPER` (lines 793-795). -/
def cmd_OPER (st : ServerState) (conn : Nat) (_params : List String) : ServerState × List Out :=
  match getConn st conn with
  | none => (st, [])
  | some _ =>
    (st, [Out.reply conn ERR_NOPRIVILEGES ["Permission Denied- You're not an IRC operator"]])

/-- The dispatch of `IRCServer.dispatch` after tokenization (lines
271-278): reflective `cmd_<NAME>` lookup becomes an explicit table; an
unknown command gets `ERR_UNKNOWNCOMMAND` only if the client is
registered, and is silently dropped otherwise. -/
def dispatchUpper (st : ServerState) (conn : Nat) (cmd : String) (params : List String) :
    ServerState × List Out :=
  if cmd = "CAP" then cmd_CAP st conn params
  else if cmd = "NICK" then cmd_NICK st conn params
  else if cmd = "USER" then cmd_USER st conn params
  else if cmd = "PING" then cmd_PING st conn params
  else if cmd = "PONG" then cmd_PONG st conn params
  else if cmd = "QUIT" then cmd_QUIT st conn params
  else if cmd = "JOIN" then cmd_JOIN st conn params
  else if cmd = "PART" then cmd_PART st conn params
  else if cmd = "PRIVMSG" then cmd_PRIVMSG st conn params
  else if cmd = "NOTICE" then cmd_NOTICE st conn params
  else if cmd = "TOPIC" then cmd_TOPIC st conn params
  else if cmd = "NAMES" then cmd_NAMES st conn params
  else if cmd = "LIST" then cmd_LIST st conn params
  else if cmd = "INVITE" then cmd_INVITE st conn params
  else if cmd = "KICK" then cmd_KICK st conn params
  else if cmd = "MODE" then cmd_MODE st conn params
  else if cmd = "WHO" then cmd_WHO st conn params
  else if cmd = "WHOIS" then cmd_WHOIS st conn params
  else if cmd = "AWAY" then cmd_AWAY st conn params
  else if cmd = "ISON" then cmd_ISON st conn params
  else if cmd = "USERHOST" then cmd_USERHOST st conn params
  else if cmd = "VERSION" then cmd_VERSION st conn params
  else if cmd = "TIME" then cmd_TIME st conn params
  else if cmd = "INFO" then cmd_INFO st conn params
  else if cmd = "LUSERS" then cmd_LUSERS st conn params
  else if cmd = "MOTD" then cmd_MOTD st conn params
  else if cmd = "OPER" then cmd_OPER st conn params
  else
    match getConn st conn with
    | some client =>
      if client.registered then
        (st, [Out.reply conn ERR_UNKNOWNCOMMAND [cmd, "Unknown command"]])
      else (st, [])
    | none => (st, [])

/-- `IRCServer.dispatch` after tokenization: `cmd = tokens[0].upper()`
then the handler lookup above. -/
def dispatchCmd (st : ServerState) (conn : Nat) (cmdRaw : String) (params : List String) :
    ServerState × List Out :=
  dispatchUpper st conn (pyUpper cmdRaw) params

/-- The commands that have a `cmd_<NAME>` handler. -/
def knownCommands : List String :=
  ["CAP", "NICK", "USER", "PING", "PONG", "QUIT", "JOIN", "PART", "PRIVMSG", "NOTICE",
   "TOPIC", "NAMES", "LIST", "INVITE", "KICK", "MODE", "WHO", "WHOIS", "AWAY", "ISON",
   "USERHOST", "VERSION", "TIME", "INFO", "LUSERS", "MOTD", "OPER"]

/-- Run a sequence of already-tokenized commands, discarding the outputs. -/
def runSeq (st : ServerState) : List (Nat × String × List String) → ServerState
  | [] => st
  | c :: cs => runSeq (dispatchCmd st c.1 c.2.1 c.2.2).1 cs

/-! ## Concrete scenario states used by the claim theorems -/

/-- Two fresh (unregistered) connections. -/
def twoConnState : ServerState := acceptConn (acceptConn initState 0 "h0") 1 "h1"

/-- `alice` on connection 0 and `bob` on connection 1, both registered. -/
def regState : ServerState := runSeq twoConnState
  [(0, "NICK", ["alice"]), (0, "USER", ["alice", "0", "*", "Alice"]),
   (1, "NICK", ["bob"]), (1, "USER", ["bob", "0", "*", "Bob"])]

/-- The record `regState` holds for connection 0. -/
def aliceClient : Client :=
  { nick := "alice", user := "alice", realname := "Alice", host := "h0",
    registered := true, awayMsg := none, channels := [], modes := [],
    signon := 0, nickSet := true, userSet := true }

/-- Two unregistered connections both claim `foo`, then both finish
registration with USER. -/
def c1FinalState : ServerState := runSeq twoConnState
  [(0, "NICK", ["foo"]), (1, "NICK", ["foo"]),
   (0, "USER", ["a", "0", "*", "A"]), (1, "USER", ["b", "0", "*", "B"])]

/-- `alice` creates `#test` (sole member and op) and then kicks herself. -/
def c2FinalState : ServerState := runSeq twoConnState
  [(0, "NICK", ["alice"]), (0, "USER", ["alice", "0", "*", "A"]),
   (0, "JOIN", ["#test"]), (0, "KICK", ["#test", "alice"])]

/-- `alice` creates `#priv`, sets `+i`, invites `bob`. -/
def c10InviteState : ServerState := runSeq regState
  [(0, "JOIN", ["#priv"]), (0, "MODE", ["#priv", "+i"]), (0, "INVITE", ["bob", "#priv"])]

/-- ... then `bob` joins. -/
def c10JoinedState : ServerState := runSeq c10InviteState [(1, "JOIN", ["#priv"])]

/-- ... then `bob` parts again. -/
def c10PartedState : ServerState := runSeq c10JoinedState [(1, "PART", ["#priv"])]

/-! ## Output projections used to compare NOTICE with PRIVMSG (C6) -/

/-- The error numeric of an output, if it is one `_send_message` can emit. -/
def errCode : Out → Option String
  | Out.reply _ code _ =>
    if code = ERR_NEEDMOREPARAMS ∨ code = ERR_NOSUCHCHANNEL ∨
       code = ERR_CANNOTSENDTOCHAN ∨ code = ERR_NOSUCHNICK then some code else none
  | Out.line _ _ _ _ => none

/-- The routing data of a delivered message line: recipient, origin mask,
and parameters — everything except the command word itself. -/
def deliveredLine : Out → Option (Nat × String × List String)
  | Out.line d origin _ params => some (d, origin, params)
  | Out.reply _ _ _ => none

/-- Whether an output is a `301 RPL_AWAY` reply. -/
def isAwayReply : Out → Bool
  | Out.reply _ code _ => code == RPL_AWAY
  | Out.line _ _ _ _ => false

/-- `alice` and `bob` both join `#c`; `alice` (the creator) is its op. -/
def c7ChanState : ServerState := runSeq regState [(0, "JOIN", ["#c"]), (1, "JOIN", ["#c"])]

/-- ... then `alice` grants herself `+o` (a no-op, she already has it)
and immediately revokes it with `-o`. -/
def c7FinalState : ServerState :=
  runSeq c7ChanState [(0, "MODE", ["#c", "+o", "alice"]), (0, "MODE", ["#c", "-o", "alice"])]

/-- A handcrafted one-channel state used as a witness input: `x` is the
registered sole member and operator of `#w`. -/
def wClient : Client :=
  { (freshClient "h" 0) with
      nick := "x", registered := true,
      nickSet := true, userSet := true, channels := ["#w"] }

def wChan : Channel :=
  { (newChannel "#w" 0) with members := [("x", 0)], ops := ["x"] }

def wState : ServerState :=
  { initState with conns := [(0, wClient)], clients := [("x", 0)],
                   channels := [("#w", wChan)] }

/-- A handcrafted invite-only-channel state used as a witness input:
`a` owns `+i` channel `#i`; `b` is registered and holds an invitation. -/
def aClient : Client :=
  { (freshClient "ha" 0) with
      nick := "a", registered := true,
      nickSet := true, userSet := true, channels := ["#i"] }

def bClient : Client :=
  { (freshClient "hb" 0) with
      nick := "b", registered := true,
      nickSet := true, userSet := true }

def iChan : Channel :=
  { (newChannel "#i" 0) with
      members := [("a", 0)], ops := ["a"],
      modes := ['i'], invites := ["b"] }

def iState : ServerState :=
  { initState with conns := [(0, aClient), (1, bClient)],
                   clients := [("a", 0), ("b", 1)], channels := [("#i", iChan)] }

/-! ## Helper lemmas about the dict / set model -/

theorem aGet_aSet {κ α : Type} [BEq κ] [LawfulBEq κ] (m : List (κ × α)) (k : κ) (v : α) :
    aGet (aSet m k v) k = some v := by
  induction m with
  | nil => simp [aGet, aSet]
  | cons p m ih =>
    by_cases hpk : (p.1 == k) = true
    · simp [aGet, aSet, List.find?, hpk]
    · by_cases h2 : (m.find? (fun q => q.1 == k)).isSome = true
      · simp only [aSet, List.find?, hpk, h2, if_true, if_false, cond_false] at ih ⊢
        simp only [List.map_cons, if_neg hpk]
        simpa [aGet, List.find?, hpk] using ih
      · simp only [aSet, List.find?, hpk, h2, if_true, if_false, cond_false] at ih ⊢
        simp only [List.cons_append]
        simpa [aGet, List.find?, hpk] using ih

theorem sRemove_sInsert_cancel {α : Type} [BEq α] [LawfulBEq α] (s : List α) (x : α) :
    sRemove (sInsert s x) x = sRemove s x := by
  unfold sInsert sRemove
  by_cases h : x ∈ s
  · simp [h]
  · simp [h, List.filter_append]

theorem sRemove_of_not_mem {α : Type} [BEq α] [LawfulBEq α] (s : List α) (x : α)
    (h : x ∉ s) : sRemove s x = s := by
  unfold sRemove
  apply List.filter_eq_self.mpr
  intro a ha
  have hax : a ≠ x := fun he => h (he ▸ ha)
  simp [hax]

theorem mem_sInsert_of_mem {α : Type} [BEq α] [LawfulBEq α] (s : List α) (x y : α)
    (h : y ∈ s) : y ∈ sInsert s x := by
  unfold sInsert
  split
  · exact h
  · exact List.mem_append_left _ h

/-! ## Claim theorems -/

/-- C1: the claim asserts that in every state reachable by NICK/USER
commands no two registered clients have case-insensitively equal nicks.
The code violates it: `cmd_NICK`'s collision check (line 298) consults
only the registered-nick registry `self.clients`, so two unregistered
connections can both claim `foo`, then both complete registration
(`try_register`, lines 335-339, installs unconditionally).  Evaluating
the code at this failing input, both connections end up registered with
the same nick `foo`, while the registry retains only the second. -/
theorem c1_duplicate_registered_nicks :
    (getConn c1FinalState 0).map (fun c => (c.registered, pyLower c.nick)) = some (true, "foo") ∧
    (getConn c1FinalState 1).map (fun c => (c.registered, pyLower c.nick)) = some (true, "foo") ∧
    c1FinalState.clients = [("foo", 1)] := by
  decide

/-- C2: the claim asserts that no empty channel survives any handler; the
code violates it in `cmd_KICK` (lines 564-587), which removes the kicked
member but — unlike PART, QUIT and cleanup — never deletes an emptied
channel.  After the sole member/operator of `#test` kicks herself, the
channel is still in the registry with an empty member dict. -/
theorem c2_kick_leaves_empty_channel :
    (aGet c2FinalState.channels "#test").map (fun ch => ch.members) = some [] := by
  decide

/-- C3 counterexample: the claim says every command other than
NICK/USER/CAP/PING/PONG/QUIT is silently ignored before registration, but
`cmd_LIST` (lines 538-541) has no registration gate: a fresh unregistered
connection issuing LIST receives `323 RPL_LISTEND`. -/
theorem c3_unregistered_list_replies :
    (getConn twoConnState 0).map (fun c => c.registered) = some false ∧
    (dispatchCmd twoConnState 0 "LIST" []).2 = [Out.reply 0 RPL_LISTEND ["End of /LIST"]] := by
  decide

/-- C4 counterexample: the claim says nick lookup is case-insensitive,
but `self.clients.get` is an exact dict lookup: with `alice` registered,
`WHOIS ALICE` from another client yields `401 ERR_NOSUCHNICK`. -/
theorem c4_whois_case_variant_rejected :
    aGet regState.clients "alice" = some 0 ∧
    (dispatchCmd regState 1 "WHOIS" ["ALICE"]).2
      = [Out.reply 1 ERR_NOSUCHNICK ["ALICE", "No such nick/channel"]] := by
  decide

/-- C6 counterexample: the claim says NOTICE never emits an error numeric,
but `cmd_NOTICE` shares `_send_message` with PRIVMSG, which replies
`401 ERR_NOSUCHNICK` for an unknown target regardless of the command. -/
theorem c6_notice_emits_error_numeric :
    send_message regState 0 ["nosuch", "hi"] "NOTICE"
      = [Out.reply 0 ERR_NOSUCHNICK ["nosuch", "No such nick/channel"]] := by
  decide

/-- C7 counterexample: the claim says `MODE +o X` then `MODE -o X` leaves
`ops` unchanged for every prior value of `ops`, including `X` already an
operator.  With `alice` already an op of `#c`, the pair removes her:
`ops` goes from `{alice}` to `{}`. -/
theorem c7_op_unop_not_identity :
    (aGet c7ChanState.channels "#c").map (fun ch => ch.ops) = some ["alice"] ∧
    (aGet c7FinalState.channels "#c").map (fun ch => ch.ops) = some [] := by
  decide

/-- C9 counterexample: the claim says a case-only rename (alice → Alice)
is accepted; in fact the exemption `nick != client.nick` (line 298) is an
exact comparison, so `NICK Alice` from `alice` collides with her own
registry entry and is rejected with `433 ERR_NICKNAMEINUSE`, leaving the
state unchanged. -/
theorem c9_case_rename_rejected_concrete :
    dispatchCmd regState 0 "NICK" ["Alice"]
      = (regState, [Out.reply 0 ERR_NICKNAMEINUSE ["Alice", "Nickname is already in use"]]) := by
  decide

/-- C9 (amended): a rename to any nick that collides case-insensitively
with a registered nick and differs from the client's own current nick by
exact comparison — in particular a case variant of the client's own nick
— is rejected with `433 ERR_NICKNAMEINUSE`, leaving the state unchanged.
The exact-equality exemption `nick != client.nick` only lets a client
resend its identical nick, not restyle its case. -/
theorem c9_case_variant_rename_rejected (st : ServerState) (conn : Nat) (c : Client)
    (nick : String) (h : getConn st conn = some c) (_hreg : c.registered = true)
    (hv : validNick nick = true)
    (hlow : (st.clients.map (fun p => pyLower p.1)).contains (pyLower nick) = true)
    (hne : nick ≠ c.nick) :
    cmd_NICK st conn [nick]
      = (st, [Out.reply conn ERR_NICKNAMEINUSE [nick, "Nickname is already in use"]]) := by
  simp [cmd_NICK, h, hv, hne]
  intro hall
  exfalso
  simp [List.contains_iff_exists_mem_beq] at hlow
  obtain ⟨x, hx, hxe⟩ := hlow
  obtain ⟨n, hp⟩ := hx
  exact hall x n hp hxe

/-- C9 witness: `alice` (registered, connection 0 of `regState`) issuing
`NICK Alice` is rejected. -/
theorem c9_case_variant_rename_rejected_witness :
    getConn regState 0 = some aliceClient ∧ aliceClient.registered = true ∧
    validNick "Alice" = true ∧
    (regState.clients.map (fun p => pyLower p.1)).contains (pyLower "Alice") = true ∧
    "Alice" ≠ aliceClient.nick ∧
    cmd_NICK regState 0 ["Alice"]
      = (regState, [Out.reply 0 ERR_NICKNAMEINUSE ["Alice", "Nickname is already in use"]]) := by
  have h : getConn regState 0 = some aliceClient := by decide
  refine ⟨h, by decide, by decide, by decide, by decide, ?_⟩
  exact c9_case_variant_rename_rejected regState 0 aliceClient "Alice" h (by decide)
    (by decide) (by decide) (by decide)

/-- C4 (amended): nick lookup is exact, not case-insensitive.  `cmd_WHOIS`
reads `self.clients` with the argument as given: if no registered client
has exactly that spelling (even when a case variant is registered) the
reply is `401 ERR_NOSUCHNICK`; with the exact stored spelling the WHOIS
burst starts with `311 RPL_WHOISUSER` for that client. -/
theorem c4_nick_lookup_exact (st : ServerState) (conn : Nat) (c : Client) (nickArg : String)
    (h : getConn st conn = some c) :
    (aGet st.clients nickArg = none →
       cmd_WHOIS st conn [nickArg]
         = (st, [Out.reply conn ERR_NOSUCHNICK [nickArg, "No such nick/channel"]])) ∧
    (∀ tconn t, aGet st.clients nickArg = some tconn → getConn st tconn = some t →
       (cmd_WHOIS st conn [nickArg]).2.head? =
         some (Out.reply conn RPL_WHOISUSER [nickArg, t.user, t.host, "*", t.realname])) := by
  constructor
  · intro hn
    simp [cmd_WHOIS, h, hn]
  · intro tconn t ht hc
    simp [cmd_WHOIS, h, ht, hc]

/-- C4 witness: with `alice` registered, `WHOIS ALICE` from `alice`'s own
connection hits the none branch and yields `401`. -/
theorem c4_nick_lookup_exact_witness :
    getConn regState 0 = some aliceClient ∧
    aGet regState.clients "ALICE" = none ∧
    cmd_WHOIS regState 0 ["ALICE"]
      = (regState, [Out.reply 0 ERR_NOSUCHNICK ["ALICE", "No such nick/channel"]]) := by
  have h : getConn regState 0 = some aliceClient := by decide
  have hn : aGet regState.clients "ALICE" = none := by decide
  exact ⟨h, hn, (c4_nick_lookup_exact regState 0 aliceClient "ALICE" h).1 hn⟩

/-- C3 (amended): pre-registration gating is per-handler, not in the
dispatcher.  An unknown command from an unregistered client is silently
dropped (no `ERR_UNKNOWNCOMMAND`), and JOIN, PRIVMSG and NOTICE check
`registered` and silently return; but other implemented handlers run for
unregistered clients — `cmd_LIST` in particular emits its replies. -/
theorem c3_preregistration_gating (st : ServerState) (conn : Nat) (c : Client)
    (h : getConn st conn = some c) (hreg : c.registered = false) :
    (∀ cmd params, pyUpper cmd ∉ knownCommands → dispatchCmd st conn cmd params = (st, [])) ∧
    (∀ params, cmd_JOIN st conn params = (st, [])) ∧
    (∀ params, cmd_PRIVMSG st conn params = (st, [])) ∧
    (∀ params, cmd_NOTICE st conn params = (st, [])) ∧
    ((cmd_LIST st conn []).1 = st ∧ (cmd_LIST st conn []).2 ≠ []) := by
  refine ⟨?_, ?_, ?_, ?_, ?_, ?_⟩
  · intro cmd params hcmd
    unfold dispatchCmd
    revert hcmd
    generalize pyUpper cmd = u
    intro hcmd
    simp only [knownCommands, List.mem_cons, List.not_mem_nil, or_false, not_or] at hcmd
    obtain ⟨h1, h2, h3, h4, h5, h6, h7, h8, h9, h10, h11, h12, h13, h14, h15, h16, h17, h18, h19, h20, h21, h22, h23, h24, h25, h26, h27⟩ := hcmd
    unfold dispatchUpper
    rw [if_neg h1, if_neg h2, if_neg h3, if_neg h4, if_neg h5, if_neg h6, if_neg h7, if_neg h8, if_neg h9, if_neg h10, if_neg h11, if_neg h12, if_neg h13, if_neg h14, if_neg h15, if_neg h16, if_neg h17, if_neg h18, if_neg h19, if_neg h20, if_neg h21, if_neg h22, if_neg h23, if_neg h24, if_neg h25, if_neg h26, if_neg h27, h]
    simp [hreg]
  · intro params
    simp [cmd_JOIN, h, hreg]
  · intro params
    simp [cmd_PRIVMSG, send_message, h, hreg]
  · intro params
    simp [cmd_NOTICE, send_message, h, hreg]
  · simp [cmd_LIST, h]
  · simp [cmd_LIST, h]

/-- C3 witness: connection 0 of `twoConnState` is unregistered; the
unknown command `FROBNICATE` is silently dropped, and LIST still replies. -/
theorem c3_preregistration_gating_witness :
    getConn twoConnState 0 = some (freshClient "h0" 0) ∧
    (freshClient "h0" 0).registered = false ∧
    dispatchCmd twoConnState 0 "FROBNICATE" [] = (twoConnState, []) ∧
    (cmd_LIST twoConnState 0 []).2 ≠ [] := by
  have h : getConn twoConnState 0 = some (freshClient "h0" 0) := by decide
  have hr : (freshClient "h0" 0).registered = false := by decide
  have main := c3_preregistration_gating twoConnState 0 (freshClient "h0" 0) h hr
  exact ⟨h, hr, main.1 "FROBNICATE" [] (by decide), main.2.2.2.2.2⟩

/-- C7 (amended): for an authorized issuer and a member `x`,
`MODE ch +o x` followed by `MODE ch -o x` leaves `ops` equal to its prior
value with `x` removed (`set.add` then `set.discard`); so `ops` is
unchanged by the pair exactly when `x` was not already an operator. -/
theorem c7_op_unop_removes_target (st : ServerState) (conn : Nat) (c : Client)
    (chName : String) (ch : Channel) (x : String) (mconn : Nat)
    (h : getConn st conn = some c)
    (hch : aGet st.channels (pyLower chName) = some ch)
    (hmem : aGet ch.members x = some mconn)
    (hauth : c.nick ∈ ch.ops ∨ 'o' ∈ c.modes) :
    ((aGet (handle_channel_mode (handle_channel_mode st conn chName ["+o", x]).1
        conn chName ["-o", x]).1.channels (pyLower chName)).map (fun ch2 => ch2.ops)
      = some (sRemove ch.ops x)) ∧
    (x ∉ ch.ops →
      (aGet (handle_channel_mode (handle_channel_mode st conn chName ["+o", x]).1
        conn chName ["-o", x]).1.channels (pyLower chName)).map (fun ch2 => ch2.ops)
      = some ch.ops) := by
  have hd1 : "+o".data = ['+', 'o'] := rfl
  have hd2 : "-o".data = ['-', 'o'] := rfl
  have hnoP : ¬(c.nick ∉ ch.ops ∧ 'o' ∉ c.modes) := by
    rcases hauth with ha | ha <;> tauto
  have hnoP2 : ¬(c.nick ∉ sInsert ch.ops x ∧ 'o' ∉ c.modes) := by
    rcases hauth with ha | ha
    · exact fun hc => hc.1 (mem_sInsert_of_mem _ _ _ ha)
    · tauto
  simp only [getConn] at h
  have main : (aGet (handle_channel_mode (handle_channel_mode st conn chName ["+o", x]).1
      conn chName ["-o", x]).1.channels (pyLower chName)).map (fun ch2 => ch2.ops)
      = some (sRemove ch.ops x) := by
    simp +decide [handle_channel_mode, getConn, h, hch, hd1, hd2, hnoP, hnoP2, chanModeStep,
      hmem, aGet_aSet, sRemove_sInsert_cancel]
  refine ⟨main, fun hx => ?_⟩
  rw [main, sRemove_of_not_mem _ _ hx]

/-- C7 witness: in the handcrafted state `wState`, `x` is already an op
of `#w`; after `+o x` then `-o x` the ops set equals `sRemove {x} x = {}`. -/
theorem c7_op_unop_removes_target_witness :
    getConn wState 0 = some wClient ∧
    aGet wState.channels (pyLower "#w") = some wChan ∧
    aGet wChan.members "x" = some 0 ∧
    ((aGet (handle_channel_mode (handle_channel_mode wState 0 "#w" ["+o", "x"]).1
        0 "#w" ["-o", "x"]).1.channels (pyLower "#w")).map (fun ch2 => ch2.ops)
      = some (sRemove wChan.ops "x")) := by
  have h : getConn wState 0 = some wClient := by decide
  have hch : aGet wState.channels (pyLower "#w") = some wChan := by decide
  have hmem : aGet wChan.members "x" = some 0 := by decide
  refine ⟨h, hch, hmem, ?_⟩
  exact (c7_op_unop_removes_target wState 0 wClient "#w" wChan "x" 0 h hch hmem
    (Or.inl (by decide))).1

/-- C10: a standing invitation is never consumed.  General part: any
successful JOIN leaves the channel's invite set exactly as it was (and
adds the joiner to the members).  Concrete part: after `alice` makes
`#priv` invite-only and invites `bob`, `bob` joins, parts, and joins the
same `+i` channel again without a new INVITE — the invite set still
contains `bob` throughout and the second JOIN emits no
`473 ERR_INVITEONLYCHAN`. -/
theorem c10_join_preserves_invites :
    (∀ (st : ServerState) (conn : Nat) (c : Client) (chName : String)
       (key : Option String) (ch : Channel),
      getConn st conn = some c →
      validChannel chName = true →
      aGet st.channels (pyLower chName) = some ch →
      (pyLower chName) ∉ c.channels →
      chFull ch = false → chBadKey ch key = false →
      chNotInvited ch c.nick = false → chIsBanned ch c.mask = false →
      (aGet (joinOne st conn chName key).1.channels (pyLower chName)).map
        (fun ch2 => (ch2.invites, (aGet ch2.members c.nick).isSome)) = some (ch.invites, true)) ∧
    ((aGet c10JoinedState.channels "#priv").map (fun ch2 => (ch2.invites, ch2.modes)) =
       some (["bob"], ['i']) ∧
     (aGet c10PartedState.channels "#priv").map (fun ch2 => ch2.invites) = some ["bob"] ∧
     (aGet (runSeq c10PartedState [(1, "JOIN", ["#priv"])]).channels "#priv").map
       (fun ch2 => ((aGet ch2.members "bob").isSome, ch2.invites)) = some (true, ["bob"]) ∧
     ((dispatchCmd c10PartedState 1 "JOIN" ["#priv"]).2.all
        (fun o => match o with
                  | Out.reply _ code _ => code ≠ ERR_INVITEONLYCHAN
                  | Out.line _ _ _ _ => true)) = true) := by
  constructor
  · intro st conn c chName key ch h hv hch hnj hfull hkey hinv hban
    simp only [getConn] at h
    by_cases hfirst : ch.members.isEmpty <;>
      simp +decide [joinOne, getConn, h, hv, hch, hnj, hfull, hkey, hinv, hban, hfirst,
        chAddMember, aGet_aSet, setConn]
  · decide

/-- C10 witness: in the handcrafted state `iState`, `b` holds a standing
invitation to the `+i` channel `#i`; her JOIN succeeds and leaves the
invite set (still containing `b`) unchanged. -/
theorem c10_join_preserves_invites_witness :
    getConn iState 1 = some bClient ∧
    validChannel "#i" = true ∧
    aGet iState.channels (pyLower "#i") = some iChan ∧
    chNotInvited iChan bClient.nick = false ∧
    (aGet (joinOne iState 1 "#i" none).1.channels (pyLower "#i")).map
      (fun ch2 => (ch2.invites, (aGet ch2.members bClient.nick).isSome))
      = some (iChan.invites, true) := by
  have h : getConn iState 1 = some bClient := by decide
  have hch : aGet iState.channels (pyLower "#i") = some iChan := by decide
  refine ⟨h, by decide, hch, by decide, ?_⟩
  exact c10_join_preserves_invites.1 iState 1 bClient "#i" none iChan h (by decide) hch
    (by decide) (by decide) (by decide) (by decide) (by decide)

/-- Python `set.add` puts the element in the set. -/
theorem mem_sInsert_self {α : Type} [BEq α] [LawfulBEq α] (s : List α) (x : α) :
    x ∈ sInsert s x := by
  unfold sInsert
  split
  · rename_i hc
    exact List.elem_iff.mp hc
  · exact List.mem_append_right _ (List.mem_singleton.mpr rfl)

/-- C5: for a registered client processing one channel name of a JOIN:
an invalid name yields `403 ERR_NOSUCHCHANNEL` and changes nothing; a
valid absent name creates the channel and makes the joiner its member and
operator; on an existing channel the gates are tested in exactly the
order limit → key → invite → ban with numerics 471, 475, 473, 474 (each
rejection leaving the state as it was after the lookup); and a successful
join into a previously empty channel puts the joiner into `ops`.
(`joinOne` is the per-channel loop body of `cmd_JOIN`, which runs only
for registered clients.) -/
theorem c5_join_gate_order (st : ServerState) (conn : Nat) (c : Client) (chName : String)
    (key : Option String) (h : getConn st conn = some c) :
    (validChannel chName = false →
      joinOne st conn chName key
        = (st, [Out.reply conn ERR_NOSUCHCHANNEL [chName, "No such channel"]])) ∧
    (validChannel chName = true → aGet st.channels (pyLower chName) = none →
      (pyLower chName) ∉ c.channels →
      (aGet (joinOne st conn chName key).1.channels (pyLower chName)).map
        (fun ch2 => ((aGet ch2.members c.nick).isSome, ch2.ops.contains c.nick))
        = some (true, true)) ∧
    (∀ ch, validChannel chName = true → aGet st.channels (pyLower chName) = some ch →
      (pyLower chName) ∉ c.channels →
      ((chFull ch = true →
         joinOne st conn chName key
           = (st, [Out.reply conn ERR_CHANNELISFULL [chName, "Cannot join channel (+l)"]])) ∧
       (chFull ch = false → chBadKey ch key = true →
         joinOne st conn chName key
           = (st, [Out.reply conn ERR_BADCHANNELKEY [chName, "Cannot join channel (+k)"]])) ∧
       (chFull ch = false → chBadKey ch key = false → chNotInvited ch c.nick = true →
         joinOne st conn chName key
           = (st, [Out.reply conn ERR_INVITEONLYCHAN [chName, "Cannot join channel (+i)"]])) ∧
       (chFull ch = false → chBadKey ch key = false → chNotInvited ch c.nick = false →
         chIsBanned ch c.mask = true →
         joinOne st conn chName key
           = (st, [Out.reply conn ERR_BANNEDFROMCHAN [chName, "Cannot join channel (+b)"]])) ∧
       (chFull ch = false → chBadKey ch key = false → chNotInvited ch c.nick = false →
         chIsBanned ch c.mask = false → ch.members = [] →
         (aGet (joinOne st conn chName key).1.channels (pyLower chName)).map
           (fun ch2 => ch2.ops.contains c.nick) = some true))) := by
  have h' := h
  simp only [getConn] at h'
  refine ⟨?_, ?_, ?_⟩
  · intro hv
    simp [joinOne, getConn, h', hv]
  · intro hv habs hnj
    simp +decide [joinOne, getConn, h', hv, habs, hnj, chAddMember, aGet_aSet, setConn,
      newChannel, chFull, chBadKey, chNotInvited, chIsBanned, sInsert]
  · intro ch hv hch hnj
    refine ⟨?_, ?_, ?_, ?_, ?_⟩
    · intro hfull
      simp [joinOne, getConn, h', hv, hch, hnj, hfull]
    · intro hfull hkey
      simp [joinOne, getConn, h', hv, hch, hnj, hfull, hkey]
    · intro hfull hkey hinv
      simp [joinOne, getConn, h', hv, hch, hnj, hfull, hkey, hinv]
    · intro hfull hkey hinv hban
      simp [joinOne, getConn, h', hv, hch, hnj, hfull, hkey, hinv, hban]
    · intro hfull hkey hinv hban hempty
      simp +decide [joinOne, getConn, h', hv, hch, hnj, hfull, hkey, hinv, hban, hempty,
        chAddMember, aGet_aSet, setConn, mem_sInsert_self]

/-- C5 witness: `alice` (registered) joins the absent channel `#new`:
it is created with her as member and operator. -/
theorem c5_join_gate_order_witness :
    getConn regState 0 = some aliceClient ∧
    validChannel "#new" = true ∧
    aGet regState.channels (pyLower "#new") = none ∧
    (aGet (joinOne regState 0 "#new" none).1.channels (pyLower "#new")).map
      (fun ch2 => ((aGet ch2.members aliceClient.nick).isSome, ch2.ops.contains aliceClient.nick))
      = some (true, true) := by
  have h : getConn regState 0 = some aliceClient := by decide
  refine ⟨h, by decide, by decide, ?_⟩
  exact (c5_join_gate_order regState 0 aliceClient "#new" none h).2.1 (by decide) (by decide)
    (by decide)

/-- C6 (amended): NOTICE routes exactly like PRIVMSG — including the
error numerics `_send_message` emits on failure (461/403/404/401, so the
"silent drop" part of the claim is false) — with a single difference:
NOTICE never emits `301 RPL_AWAY`.  Formally: NOTICE changes no state,
none of its outputs is a 301 reply, it yields the same error-numeric
sequence as PRIVMSG on the same input, and the same delivered lines
(recipient, origin and parameters; only the command word differs). -/
theorem c6_notice_vs_privmsg (st : ServerState) (conn : Nat) (params : List String) :
    (cmd_NOTICE st conn params).1 = st ∧
    (∀ o ∈ (cmd_NOTICE st conn params).2, isAwayReply o = false) ∧
    (cmd_NOTICE st conn params).2.filterMap errCode
      = (cmd_PRIVMSG st conn params).2.filterMap errCode ∧
    (cmd_NOTICE st conn params).2.filterMap deliveredLine
      = (cmd_PRIVMSG st conn params).2.filterMap deliveredLine := by
  refine ⟨rfl, ?_⟩
  unfold cmd_NOTICE cmd_PRIVMSG send_message
  cases hg : getConn st conn with
  | none => simp
  | some client =>
    by_cases hreg : client.registered = true
    case neg => simp [hreg]
    case pos =>
    by_cases hlen : params.length < 2
    · simp +decide [hreg, hlen, errCode, isAwayReply, deliveredLine,
        ERR_NEEDMOREPARAMS, RPL_AWAY]
    · generalize params.getD 0 "" = t
      generalize params.getD 1 "" = txt
      by_cases hsig : startsSigil t = true
      · cases hch : aGet st.channels (pyLower t) with
        | none => simp +decide [hreg, hlen, hsig, hch, errCode, isAwayReply, deliveredLine,
            ERR_NOSUCHCHANNEL, RPL_AWAY]
        | some ch =>
          by_cases hn : 'n' ∈ ch.modes ∧ pyLower t ∉ client.channels
          · simp +decide [hreg, hlen, hsig, hch, hn, errCode, isAwayReply, deliveredLine,
              ERR_CANNOTSENDTOCHAN, RPL_AWAY]
          · by_cases hm : ('m' ∈ ch.modes ∧ client.nick ∉ ch.ops) ∧ client.nick ∉ ch.voices
            · simp +decide [hreg, hlen, hsig, hch, hn, hm, errCode, isAwayReply, deliveredLine,
                ERR_CANNOTSENDTOCHAN, RPL_AWAY]
            · simp +decide [hreg, hlen, hsig, hch, hn, hm, List.filterMap_map]
              refine ⟨?_, ?_, ?_⟩
              · intro o x x1 _ _ heq
                subst heq
                rfl
              · exact List.filterMap_congr (fun a _ => rfl)
              · exact List.filterMap_congr (fun a _ => rfl)
      · cases hcl : aGet st.clients t with
        | none => simp +decide [hreg, hlen, hsig, hcl, errCode, isAwayReply, deliveredLine,
            ERR_NOSUCHNICK, RPL_AWAY]
        | some destConn =>
          cases hdest : getConn st destConn with
          | none => simp +decide [hreg, hlen, hsig, hcl, hdest, errCode, isAwayReply,
              deliveredLine]
          | some dest =>
            by_cases haway : pyFalsyOpt dest.awayMsg = true
            · simp +decide [hreg, hlen, hsig, hcl, hdest, haway, errCode, isAwayReply,
                deliveredLine]
            · simp +decide [hreg, hlen, hsig, hcl, hdest, haway, errCode, isAwayReply,
                deliveredLine, RPL_AWAY, ERR_NEEDMOREPARAMS, ERR_NOSUCHCHANNEL,
                ERR_CANNOTSENDTOCHAN, ERR_NOSUCHNICK]

/-! ## Lemmas for the tokenizer / formatter round trip (C8) -/

theorem charLe_toNat {a b : Char} : a ≤ b ↔ a.toNat ≤ b.toNat := by
  rw [Char.le_def, UInt32.le_def, BitVec.le_def]
  exact Iff.rfl

theorem toNat_ofNat_valid (n : Nat) (h : n < 55296) : (Char.ofNat n).toNat = n := by
  rw [Char.ofNat, dif_pos (Or.inl h)]
  rfl

theorem upChar_bounds (c : Char) (h : 'a' ≤ c ∧ c ≤ 'z') :
    (upChar c).toNat = c.toNat - 32 ∧ 65 ≤ (upChar c).toNat ∧ (upChar c).toNat ≤ 90 := by
  have h1 : 97 ≤ c.toNat := charLe_toNat.mp h.1
  have h2 : c.toNat ≤ 122 := charLe_toNat.mp h.2
  unfold upChar
  rw [if_pos h]
  rw [toNat_ofNat_valid _ (by omega)]
  omega

theorem upChar_eq_self (c : Char) (h : ¬('a' ≤ c ∧ c ≤ 'z')) : upChar c = c := by
  unfold upChar
  rw [if_neg h]

theorem upChar_ne (c d : Char) (hd : d.toNat < 65) (hne : c ≠ d) : upChar c ≠ d := by
  by_cases h : 'a' ≤ c ∧ c ≤ 'z'
  · intro he
    have := congrArg Char.toNat he
    have hb := upChar_bounds c h
    omega
  · rw [upChar_eq_self c h]
    exact hne

theorem isWsC_upChar (c : Char) (h : isWsC c = false) : isWsC (upChar c) = false := by
  by_cases hc : 'a' ≤ c ∧ c ≤ 'z'
  · have hb := upChar_bounds c hc
    simp only [isWsC, Bool.or_eq_false_iff, beq_eq_false_iff_ne]
    refine ⟨⟨⟨⟨⟨?_, ?_⟩, ?_⟩, ?_⟩, ?_⟩, ?_⟩ <;>
      (intro he; have h2 := congrArg Char.toNat he; have hb2 := hb.2; rw [h2] at hb2
       exact absurd hb2 (by decide))
  · rwa [upChar_eq_self c hc]

theorem upChar_idem (c : Char) : upChar (upChar c) = upChar c := by
  by_cases hc : 'a' ≤ c ∧ c ≤ 'z'
  · have hb := upChar_bounds c hc
    apply upChar_eq_self
    intro hcontra
    have hle := charLe_toNat.mp hcontra.1
    have ha : ('a' : Char).toNat = 97 := rfl
    omega
  · rw [upChar_eq_self c hc]
    exact upChar_eq_self c hc

theorem hasSC_append_of_no_space (a l : List Char) (h : ∀ c ∈ a, isWsC c = false) :
    hasSC (a ++ l) = hasSC l := by
  induction a with
  | nil => rfl
  | cons c a ih =>
    have hc : ¬(c = ' ') := by
      intro he
      subst he
      exact absurd (h ' ' (by simp)) (by simp [isWsC])
    simp only [List.cons_append, hasSC, List.append_eq]
    rw [ih (fun d hd => h d (by simp [hd]))]
    simp [hc]

theorem joinSp_head (t : List Char) (ts : List (List Char)) (ht : t ≠ []) :
    (joinSp (t :: ts)).head? = t.head? := by
  cases ts with
  | nil => rfl
  | cons t2 ts2 =>
    cases t with
    | nil => exact absurd rfl ht
    | cons c cs => rfl

theorem hasSC_joinSp (ts : List (List Char))
    (h : ∀ t ∈ ts, t ≠ [] ∧ (∀ c ∈ t, isWsC c = false) ∧ t.head? ≠ some ':') :
    hasSC (joinSp ts) = false := by
  induction ts with
  | nil => rfl
  | cons t ts ih =>
    cases ts with
    | nil =>
      have hw := (h t (by simp)).2.1
      have := hasSC_append_of_no_space t [] hw
      simpa [joinSp] using this
    | cons t2 ts2 =>
      simp only [joinSp]
      rw [hasSC_append_of_no_space t _ ((h t (by simp)).2.1)]
      simp only [hasSC]
      rw [joinSp_head t2 ts2 (h t2 (by simp)).1]
      have hh := (h t2 (by simp)).2.2
      have ihr := ih (fun u hu => h u (by simp [hu]))
      simp [hh, ihr]

theorem splitSC_eq_none (l : List Char) (h : hasSC l = false) : splitSC l = none := by
  induction l with
  | nil => rfl
  | cons c rest ih =>
    simp only [hasSC, Bool.or_eq_false_iff, decide_eq_false_iff_not] at h
    simp [splitSC, h.1, ih h.2]

theorem splitSC_marker (a b : List Char) (h : hasSC a = false) :
    splitSC (a ++ ' ' :: ':' :: b) = some (a, b) := by
  induction a with
  | nil => simp [splitSC]
  | cons c a ih =>
    simp only [hasSC, Bool.or_eq_false_iff, decide_eq_false_iff_not] at h
    have hcond : ¬(c = ' ' ∧ ((a ++ ' ' :: ':' :: b).head? = some ':')) := by
      cases a with
      | nil => simp
      | cons d a2 =>
        rintro ⟨hc, hd⟩
        simp at hd
        exact h.1 ⟨hc, by simp [hd]⟩
    simp only [List.cons_append, splitSC, List.append_eq]
    rw [if_neg hcond, ih h.2]
    rfl

theorem wsSplitAux_append (t : List Char) (h : ∀ c ∈ t, isWsC c = false) :
    ∀ (r acc : List Char), wsSplitAux (t ++ r) acc = wsSplitAux r (t.reverse ++ acc) := by
  induction t with
  | nil => intro r acc; simp
  | cons c t ih =>
    intro r acc
    have hc : isWsC c = false := h c (by simp)
    simp only [List.cons_append, wsSplitAux, hc, Bool.false_eq_true, if_false, List.append_eq]
    rw [ih (fun d hd => h d (by simp [hd])) r (c :: acc)]
    simp

theorem wsSplit_joinSp (ts : List (List Char))
    (h : ∀ t ∈ ts, t ≠ [] ∧ ∀ c ∈ t, isWsC c = false) :
    wsSplit (joinSp ts) = ts := by
  induction ts with
  | nil => rfl
  | cons t ts ih =>
    obtain ⟨ht, hw⟩ := h t (by simp)
    cases ts with
    | nil =>
      show wsSplitAux (joinSp [t]) [] = [t]
      simp only [joinSp]
      have e := wsSplitAux_append t hw [] []
      simp only [List.append_nil] at e
      rw [e]
      simp [wsSplitAux, ht]
    | cons t2 ts2 =>
      show wsSplitAux (joinSp (t :: t2 :: ts2)) [] = t :: t2 :: ts2
      simp only [joinSp]
      rw [wsSplitAux_append t hw _ []]
      simp only [List.append_nil, wsSplitAux, isWsC]
      have hne : t.reverse.isEmpty = false := by
        simpa using ht
      simp [hne]
      exact ih (fun u hu => h u (by simp [hu]))

theorem wsSplit_trailing_space (t : List Char) (ht : t ≠ [])
    (hw : ∀ c ∈ t, isWsC c = false) :
    wsSplit (t ++ [' ']) = [t] := by
  show wsSplitAux (t ++ [' ']) [] = [t]
  rw [wsSplitAux_append t hw [' '] []]
  simp only [List.append_nil, wsSplitAux, isWsC]
  have hne : t.reverse.isEmpty = false := by simpa using ht
  simp [hne]

theorem afterFirstSpace_append (a b : List Char) (h : ∀ c ∈ a, isWsC c = false) :
    afterFirstSpace (a ++ ' ' :: b) = b := by
  induction a with
  | nil => simp [afterFirstSpace]
  | cons c a ih =>
    have hc : ¬(c = ' ') := by
      intro he
      subst he
      exact absurd (h ' ' (by simp)) (by simp [isWsC])
    simp [afterFirstSpace, hc, ih (fun d hd => h d (by simp [hd]))]

theorem joinSp_concat (xs : List (List Char)) (y : List Char) (hxs : xs ≠ []) :
    joinSp (xs ++ [y]) = joinSp xs ++ ' ' :: y := by
  induction xs with
  | nil => exact absurd rfl hxs
  | cons x xs ih =>
    cases xs with
    | nil => rfl
    | cons x2 xs2 =>
      have ih2 := ih (by simp)
      simp only [List.cons_append] at ih2
      simp only [List.cons_append, joinSp, List.append_eq]
      rw [ih2]
      simp

theorem colonLast_concat (ps : List (List Char)) (la : List Char) :
    colonLast (ps ++ [la]) = ps ++ [':' :: la] := by
  induction ps with
  | nil => rfl
  | cons p ps ih =>
    cases ps with
    | nil => rfl
    | cons p2 ps2 =>
      simp only [List.cons_append] at ih
      simp only [List.cons_append, colonLast, List.append_eq]
      rw [ih]

theorem head?_append_left {α : Type} (a b : List α) (ha : a ≠ []) :
    (a ++ b).head? = a.head? := by
  cases a with
  | nil => exact absurd rfl ha
  | cons c cs => rfl

theorem joinSp_cons_ne (t : List Char) (ts : List (List Char)) (hts : ts ≠ []) :
    joinSp (t :: ts) = t ++ ' ' :: joinSp ts := by
  cases ts with
  | nil => exact absurd rfl hts
  | cons t2 ts2 => rfl

theorem dropLeadSource_eq (l : List Char) (h : l.head? ≠ some ':') :
    dropLeadSource l = l := by
  unfold dropLeadSource
  rw [if_neg h]

theorem upList_ne_nil (l : List Char) (h : l ≠ []) : upList l ≠ [] := by
  simpa [upList] using h

theorem upList_no_ws (l : List Char) (h : ∀ c ∈ l, isWsC c = false) :
    ∀ c ∈ upList l, isWsC c = false := by
  intro c hc
  obtain ⟨d, hd, rfl⟩ := List.mem_map.mp hc
  exact isWsC_upChar d (h d hd)

theorem upList_head_ne_colon (l : List Char) (h : l.head? ≠ some ':') :
    (upList l).head? ≠ some ':' := by
  cases l with
  | nil => simp [upList]
  | cons c cs =>
    have hc : c ≠ ':' := by
      intro he
      exact h (by simp [he])
    simp only [upList, List.map_cons, List.head?_cons]
    intro he
    have := Option.some.inj he
    exact upChar_ne c ':' (by decide) hc this

theorem upList_idem (l : List Char) : upList (upList l) = upList l := by
  simp only [upList, List.map_map]
  exact List.map_congr_left (fun a _ => upChar_idem a)

theorem parseLine_joinSp (cmdTok : List Char) (middles : List (List Char))
    (trailing : Option (List Char))
    (hC : cmdTok ≠ [] ∧ (∀ c ∈ cmdTok, isWsC c = false) ∧ cmdTok.head? ≠ some ':')
    (hM : ∀ t ∈ middles, t ≠ [] ∧ (∀ c ∈ t, isWsC c = false) ∧ t.head? ≠ some ':') :
    parseLine (joinSp (cmdTok :: middles) ++
        (match trailing with | none => [] | some tr => ' ' :: ':' :: tr))
      = some (upList cmdTok, middles ++ (match trailing with | none => [] | some tr => [tr])) := by
  have hconds : ∀ t ∈ cmdTok :: middles,
      t ≠ [] ∧ (∀ c ∈ t, isWsC c = false) ∧ t.head? ≠ some ':' := by
    intro t ht
    rcases List.mem_cons.mp ht with rfl | hmem
    · exact hC
    · exact hM t hmem
  have hSC : hasSC (joinSp (cmdTok :: middles)) = false := hasSC_joinSp _ hconds
  have hws : wsSplit (joinSp (cmdTok :: middles)) = cmdTok :: middles :=
    wsSplit_joinSp _ (fun t ht => ⟨(hconds t ht).1, (hconds t ht).2.1⟩)
  have hhead : (joinSp (cmdTok :: middles)).head? = cmdTok.head? := joinSp_head _ _ hC.1
  cases trailing with
  | none =>
    have hdrop : dropLeadSource (joinSp (cmdTok :: middles) ++ [])
        = joinSp (cmdTok :: middles) := by
      rw [List.append_nil]
      exact dropLeadSource_eq _ (by rw [hhead]; exact hC.2.2)
    unfold parseLine parseTokens
    rw [List.append_nil] at hdrop ⊢
    rw [hdrop, splitSC_eq_none _ hSC, hws]
    simp
  | some tr =>
    have hdrop : dropLeadSource (joinSp (cmdTok :: middles) ++ ' ' :: ':' :: tr)
        = joinSp (cmdTok :: middles) ++ ' ' :: ':' :: tr := by
      apply dropLeadSource_eq
      rw [head?_append_left _ _ (by
        cases hc : cmdTok with
        | nil => exact absurd hc hC.1
        | cons c cs => subst hc; cases middles <;> simp [joinSp])]
      rw [hhead]
      exact hC.2.2
    unfold parseLine parseTokens
    rw [hdrop, splitSC_marker _ _ hSC]
    simp [hws]

theorem parseLine_formatFrom (origin cmd : List Char) (params : List (List Char))
    (hOw : ∀ c ∈ origin, isWsC c = false)
    (hCne : cmd ≠ []) (hCw : ∀ c ∈ cmd, isWsC c = false) (hCcolon : cmd.head? ≠ some ':')
    (hup : upList cmd = cmd)
    (hP : ∀ t ∈ params.dropLast, t ≠ [] ∧ (∀ c ∈ t, isWsC c = false) ∧ t.head? ≠ some ':') :
    parseLine (formatFrom origin cmd params) = some (cmd, params) := by
  have hdrop : dropLeadSource (formatFrom origin cmd params)
      = cmd ++ ' ' :: joinSp (colonLast params) := by
    unfold formatFrom dropLeadSource
    simp only [List.cons_append, List.head?_cons, List.tail_cons, if_pos]
    simpa using afterFirstSpace_append origin (cmd ++ ' ' :: joinSp (colonLast params)) hOw
  rcases List.eq_nil_or_concat params with rfl | ⟨ps, la, rfl⟩
  · have hSC : hasSC (cmd ++ [' ']) = false := by
      rw [hasSC_append_of_no_space cmd [' '] hCw]
      rfl
    unfold parseLine parseTokens
    rw [hdrop]
    simp only [colonLast, joinSp]
    rw [splitSC_eq_none _ hSC, wsSplit_trailing_space cmd hCne hCw]
    simp [hup]
  · simp only [List.concat_eq_append] at hP hdrop ⊢
    have hPs : ∀ t ∈ ps, t ≠ [] ∧ (∀ c ∈ t, isWsC c = false) ∧ t.head? ≠ some ':' := by
      intro t ht
      exact hP t (by simp [ht])
    have hconds : ∀ t ∈ cmd :: ps,
        t ≠ [] ∧ (∀ c ∈ t, isWsC c = false) ∧ t.head? ≠ some ':' := by
      intro t ht
      rcases List.mem_cons.mp ht with rfl | hmem
      · exact ⟨hCne, hCw, hCcolon⟩
      · exact hPs t hmem
    have harg : cmd ++ ' ' :: joinSp (colonLast (ps ++ [la]))
        = joinSp (cmd :: ps) ++ ' ' :: ':' :: la := by
      rw [colonLast_concat]
      cases ps with
      | nil => simp [joinSp]
      | cons p ps2 =>
        rw [joinSp_concat _ _ (by simp)]
        rw [joinSp_cons_ne cmd (p :: ps2) (by simp)]
        simp
    have hSC : hasSC (joinSp (cmd :: ps)) = false := hasSC_joinSp _ hconds
    unfold parseLine parseTokens
    rw [hdrop, harg, splitSC_marker _ _ hSC]
    simp [wsSplit_joinSp _ (fun t ht => ⟨(hconds t ht).1, (hconds t ht).2.1⟩), hup]

/-- C8: parse/format round trip.  A well-formed line without a leading
`:source` is `cmd SP m1 SP ... SP mk [SP ':' trailing]` where the command
and middle tokens are nonempty, contain no whitespace, and do not start
with `':'` (the conditions space-separated tokenization guarantees).
Parsing it with the dispatcher's tokenizer yields the uppercased command
and the parameter list `middles ++ [trailing]` (the trailing text folded
in as the final, verbatim parameter); reformatting those tokens with
`Client.send_from` (which prefixes `':'` to the last parameter) and
re-parsing the result yields the same command, the same parameter list,
and hence the same trailing text. -/
theorem c8_parse_format_roundtrip
    (origin cmdTok : List Char) (middles : List (List Char)) (trailing : Option (List Char))
    (hO : ∀ c ∈ origin, isWsC c = false)
    (hC : cmdTok ≠ [] ∧ (∀ c ∈ cmdTok, isWsC c = false) ∧ cmdTok.head? ≠ some ':')
    (hM : ∀ t ∈ middles, t ≠ [] ∧ (∀ c ∈ t, isWsC c = false) ∧ t.head? ≠ some ':') :
    parseLine (joinSp (cmdTok :: middles) ++
        (match trailing with | none => [] | some tr => ' ' :: ':' :: tr))
      = some (upList cmdTok, middles ++ (match trailing with | none => [] | some tr => [tr])) ∧
    parseLine (formatFrom origin (upList cmdTok)
        (middles ++ (match trailing with | none => [] | some tr => [tr])))
      = some (upList cmdTok, middles ++ (match trailing with | none => [] | some tr => [tr])) := by
  refine ⟨parseLine_joinSp cmdTok middles trailing hC hM, ?_⟩
  refine parseLine_formatFrom origin (upList cmdTok) _ hO (upList_ne_nil _ hC.1)
    (upList_no_ws _ hC.2.1) (upList_head_ne_colon _ hC.2.2) (upList_idem cmdTok) ?_
  intro t ht
  cases trailing with
  | none =>
    simp only [List.append_nil] at ht
    exact hM t (List.dropLast_subset _ ht)
  | some tr =>
    simp only [List.dropLast_concat] at ht
    exact hM t ht

/-- C8 witness: the line `privmsg #test :hi there` parses to
`(PRIVMSG, [#test, "hi there"])`, and reformatting from origin `srv`
and re-parsing returns the same command, parameters and trailing text. -/
theorem c8_parse_format_roundtrip_witness :
    ((joinSp ("privmsg".data :: ["#test".data]) ++ ' ' :: ':' :: "hi there".data)
       = "privmsg #test :hi there".data) ∧
    ("privmsg".data ≠ [] ∧ (∀ c ∈ "privmsg".data, isWsC c = false) ∧
      ("privmsg".data).head? ≠ some ':') ∧
    (parseLine (joinSp ("privmsg".data :: ["#test".data]) ++ ' ' :: ':' :: "hi there".data)
       = some (upList "privmsg".data, ["#test".data] ++ ["hi there".data]) ∧
     parseLine (formatFrom "srv".data (upList "privmsg".data)
         (["#test".data] ++ ["hi there".data]))
       = some (upList "privmsg".data, ["#test".data] ++ ["hi there".data])) := by
  refine ⟨by decide, ⟨by decide, by decide, by decide⟩, ?_⟩
  exact c8_parse_format_roundtrip "srv".data "privmsg".data ["#test".data]
    (some "hi there".data) (by decide) ⟨by decide, by decide, by decide⟩ (by decide)
